import Mathlib

/-!
Verification of the gintendo NES emulator (github.com/bdwalton/gintendo)
against its natural-language specification.

The Go sources are shallowly embedded: Go structs become Lean structures,
machine integers (uint8/uint16/int) become `Nat`/`Int` with the wraparound
of each Go operation made explicit as `% 256` / `% 65536`, mutation becomes
explicit state passing, and Go panics become `Except`/`Option` errors.
Backing stores (RAM, VRAM, OAM, palette) are embedded as functions
`Nat → Nat`; a read applies `% 256` (the store's element type is uint8) and
a read address is reduced `% 65536` (addresses are uint16).  The CPU's bus
handle (a Go interface with `Read`/`Write`) is instantiated by such a plain
memory, which is the contract the CPU sees.
-/

namespace mos6502

/-- Addressable memory behind the CPU's `Bus` interface: `Read(uint16) uint8`,
`Write(uint16, uint8)`. -/
def Mem : Type := Nat → Nat

/-- `Bus.Read`: addresses are uint16, values are uint8. -/
def Mem.read (m : Mem) (addr : Nat) : Nat := m (addr % 65536) % 256

/-- `Bus.Write`. -/
def Mem.write (m : Mem) (addr v : Nat) : Mem :=
  fun t => if t = addr % 65536 then v else m t

-- 6502 interrupt vectors (mos6502.go)
def INT_NONE : Nat := 0x0000
def INT_IRQ : Nat := 0xFFFE
def INT_BRK : Nat := INT_IRQ
def INT_RESET : Nat := 0xFFFC
def INT_NMI : Nat := 0xFFFA

-- 6502 processor status flags (mos6502.go)
def STATUS_FLAG_CARRY : Nat := 1
def STATUS_FLAG_ZERO : Nat := 2
def STATUS_FLAG_INTERRUPT_DISABLE : Nat := 4
def STATUS_FLAG_DECIMAL : Nat := 8
def STATUS_FLAG_BREAK : Nat := 16
def UNUSED_STATUS_FLAG : Nat := 32
def STATUS_FLAG_OVERFLOW : Nat := 64
def STATUS_FLAG_NEGATIVE : Nat := 128

-- 6502 addressing modes (iota enumeration in the opcode-table source file)
def IMPLICIT : Nat := 0
def ACCUMULATOR : Nat := 1
def IMMEDIATE : Nat := 2
def ZERO_PAGE : Nat := 3
def ZERO_PAGE_X : Nat := 4
def ZERO_PAGE_X_BUT_Y : Nat := 5
def ZERO_PAGE_Y : Nat := 6
def RELATIVE : Nat := 7
def ABSOLUTE : Nat := 8
def ABSOLUTE_X : Nat := 9
def ABSOLUTE_Y : Nat := 10
def INDIRECT : Nat := 11
def INDIRECT_X : Nat := 12
def INDIRECT_Y : Nat := 13

def STACK_PAGE : Nat := 0x0100

-- 6502 instruction identifiers (iota enumeration)
def ADC : Nat := 0
def AND : Nat := 1
def ASL : Nat := 2
def BCC : Nat := 3
def BCS : Nat := 4
def BEQ : Nat := 5
def BIT : Nat := 6
def BMI : Nat := 7
def BNE : Nat := 8
def BPL : Nat := 9
def BRK : Nat := 10
def BVC : Nat := 11
def BVS : Nat := 12
def CLC : Nat := 13
def CLD : Nat := 14
def CLI : Nat := 15
def CLV : Nat := 16
def CMP : Nat := 17
def CPX : Nat := 18
def CPY : Nat := 19
def DEC : Nat := 20
def DEX : Nat := 21
def DEY : Nat := 22
def EOR : Nat := 23
def INC : Nat := 24
def INX : Nat := 25
def INY : Nat := 26
def JMP : Nat := 27
def JSR : Nat := 28
def LDA : Nat := 29
def LDX : Nat := 30
def LDY : Nat := 31
def LSR : Nat := 32
def NOP : Nat := 33
def ORA : Nat := 34
def PHA : Nat := 35
def PHP : Nat := 36
def PLA : Nat := 37
def PLP : Nat := 38
def ROL : Nat := 39
def ROR : Nat := 40
def RTI : Nat := 41
def RTS : Nat := 42
def SBC : Nat := 43
def SEC : Nat := 44
def SED : Nat := 45
def SEI : Nat := 46
def STA : Nat := 47
def STX : Nat := 48
def STY : Nat := 49
def TAX : Nat := 50
def TAY : Nat := 51
def TSX : Nat := 52
def TXA : Nat := 53
def TXS : Nat := 54
def TYA : Nat := 55
def LAX : Nat := 56
def SAX : Nat := 57
def DCM : Nat := 58
def ISB : Nat := 59

/-- Entry of the opcode table `opcodes`: instruction id, method name used for
reflection dispatch, addressing mode, instruction byte length, base cycles. -/
structure opcode where
  inst : Nat
  name : String
  mode : Nat
  bytes : Nat
  cycles : Nat

/-- A Go runtime failure raised while stepping the CPU.  `invalidInstruction`
is the wrapped `errors.New("invalid instruction")` error with which `Step`
panics; the other constructors are the explicit `panic(...)` calls in
`getOperandAddr` and the nil-method panic of reflection dispatch. -/
inductive Panic where
  | invalidInstruction (pc inst : Nat)
  | badAddressingMode (msg : String)
  | noSuchMethod (name : String)

/-- The CPU machine state (`type CPU struct`).  `mem` stands for the Bus
handle, `cycles` is a Go `int`, `pendingInterrupt` holds `INT_NONE`,
`INT_NMI` or `INT_IRQ` (the vector address itself). -/
structure CPU where
  acc : Nat
  x : Nat
  y : Nat
  status : Nat
  sp : Nat
  pc : Nat
  mem : Mem
  cycles : Int
  pendingInterrupt : Nat
  nmiTriggered : Bool

/-- `opcodes`: the full 197-entry opcode map of the emulator. -/
def opcodes : Nat → Option opcode := fun n =>
  match n with
  | 0x69 => some ⟨ADC, "ADC", IMMEDIATE, 2, 2⟩
  | 0x65 => some ⟨ADC, "ADC", ZERO_PAGE, 2, 3⟩
  | 0x75 => some ⟨ADC, "ADC", ZERO_PAGE_X, 2, 4⟩
  | 0x6D => some ⟨ADC, "ADC", ABSOLUTE, 3, 4⟩
  | 0x7D => some ⟨ADC, "ADC", ABSOLUTE_X, 3, 4⟩
  | 0x79 => some ⟨ADC, "ADC", ABSOLUTE_Y, 3, 4⟩
  | 0x61 => some ⟨ADC, "ADC", INDIRECT_X, 2, 6⟩
  | 0x71 => some ⟨ADC, "ADC", INDIRECT_Y, 2, 5⟩
  | 0x29 => some ⟨AND, "AND", IMMEDIATE, 2, 2⟩
  | 0x25 => some ⟨AND, "AND", ZERO_PAGE, 2, 3⟩
  | 0x35 => some ⟨AND, "AND", ZERO_PAGE_X, 2, 4⟩
  | 0x2D => some ⟨AND, "AND", ABSOLUTE, 3, 4⟩
  | 0x3D => some ⟨AND, "AND", ABSOLUTE_X, 3, 4⟩
  | 0x39 => some ⟨AND, "AND", ABSOLUTE_Y, 3, 4⟩
  | 0x21 => some ⟨AND, "AND", INDIRECT_X, 2, 6⟩
  | 0x31 => some ⟨AND, "AND", INDIRECT_Y, 2, 5⟩
  | 0x0A => some ⟨ASL, "ASL", ACCUMULATOR, 1, 2⟩
  | 0x06 => some ⟨ASL, "ASL", ZERO_PAGE, 2, 5⟩
  | 0x16 => some ⟨ASL, "ASL", ZERO_PAGE_X, 2, 6⟩
  | 0x0E => some ⟨ASL, "ASL", ABSOLUTE, 3, 6⟩
  | 0x1E => some ⟨ASL, "ASL", ABSOLUTE_X, 3, 7⟩
  | 0x90 => some ⟨BCC, "BCC", RELATIVE, 2, 2⟩
  | 0xB0 => some ⟨BCS, "BCS", RELATIVE, 2, 2⟩
  | 0xF0 => some ⟨BEQ, "BEQ", RELATIVE, 2, 2⟩
  | 0x24 => some ⟨BIT, "BIT", ZERO_PAGE, 2, 3⟩
  | 0x2C => some ⟨BIT, "BIT", ABSOLUTE, 3, 4⟩
  | 0x30 => some ⟨BMI, "BMI", RELATIVE, 2, 2⟩
  | 0xD0 => some ⟨BNE, "BNE", RELATIVE, 2, 2⟩
  | 0x10 => some ⟨BPL, "BPL", RELATIVE, 2, 2⟩
  | 0x00 => some ⟨BRK, "BRK", IMPLICIT, 2, 7⟩
  | 0x50 => some ⟨BVC, "BVC", RELATIVE, 2, 2⟩
  | 0x70 => some ⟨BVS, "BVS", RELATIVE, 2, 2⟩
  | 0x18 => some ⟨CLC, "CLC", IMPLICIT, 1, 2⟩
  | 0xD8 => some ⟨CLD, "CLD", IMPLICIT, 1, 2⟩
  | 0x58 => some ⟨CLI, "CLI", IMPLICIT, 1, 2⟩
  | 0xB8 => some ⟨CLV, "CLV", IMPLICIT, 1, 2⟩
  | 0xC9 => some ⟨CMP, "CMP", IMMEDIATE, 2, 2⟩
  | 0xC5 => some ⟨CMP, "CMP", ZERO_PAGE, 2, 3⟩
  | 0xD5 => some ⟨CMP, "CMP", ZERO_PAGE_X, 2, 4⟩
  | 0xCD => some ⟨CMP, "CMP", ABSOLUTE, 3, 4⟩
  | 0xDD => some ⟨CMP, "CMP", ABSOLUTE_X, 3, 4⟩
  | 0xD9 => some ⟨CMP, "CMP", ABSOLUTE_Y, 3, 4⟩
  | 0xC1 => some ⟨CMP, "CMP", INDIRECT_X, 2, 6⟩
  | 0xD1 => some ⟨CMP, "CMP", INDIRECT_Y, 2, 5⟩
  | 0xE0 => some ⟨CPX, "CPX", IMMEDIATE, 2, 2⟩
  | 0xE4 => some ⟨CPX, "CPX", ZERO_PAGE, 2, 3⟩
  | 0xEC => some ⟨CPX, "CPX", ABSOLUTE, 3, 4⟩
  | 0xC0 => some ⟨CPY, "CPY", IMMEDIATE, 2, 2⟩
  | 0xC4 => some ⟨CPY, "CPY", ZERO_PAGE, 2, 3⟩
  | 0xCC => some ⟨CPY, "CPY", ABSOLUTE, 3, 4⟩
  | 0xC6 => some ⟨DEC, "DEC", ZERO_PAGE, 2, 5⟩
  | 0xD6 => some ⟨DEC, "DEC", ZERO_PAGE_X, 2, 6⟩
  | 0xCE => some ⟨DEC, "DEC", ABSOLUTE, 3, 6⟩
  | 0xDE => some ⟨DEC, "DEC", ABSOLUTE_X, 3, 7⟩
  | 0xCA => some ⟨DEX, "DEX", IMPLICIT, 1, 2⟩
  | 0x88 => some ⟨DEY, "DEY", IMPLICIT, 1, 2⟩
  | 0x49 => some ⟨EOR, "EOR", IMMEDIATE, 2, 2⟩
  | 0x45 => some ⟨EOR, "EOR", ZERO_PAGE, 2, 3⟩
  | 0x55 => some ⟨EOR, "EOR", ZERO_PAGE_X, 2, 4⟩
  | 0x4D => some ⟨EOR, "EOR", ABSOLUTE, 3, 4⟩
  | 0x5D => some ⟨EOR, "EOR", ABSOLUTE_X, 3, 4⟩
  | 0x59 => some ⟨EOR, "EOR", ABSOLUTE_Y, 3, 4⟩
  | 0x41 => some ⟨EOR, "EOR", INDIRECT_X, 2, 6⟩
  | 0x51 => some ⟨EOR, "EOR", INDIRECT_Y, 2, 5⟩
  | 0xE6 => some ⟨INC, "INC", ZERO_PAGE, 2, 5⟩
  | 0xF6 => some ⟨INC, "INC", ZERO_PAGE_X, 2, 6⟩
  | 0xEE => some ⟨INC, "INC", ABSOLUTE, 3, 6⟩
  | 0xFE => some ⟨INC, "INC", ABSOLUTE_X, 3, 7⟩
  | 0xE8 => some ⟨INX, "INX", IMPLICIT, 1, 2⟩
  | 0xC8 => some ⟨INY, "INY", IMPLICIT, 1, 2⟩
  | 0x4C => some ⟨JMP, "JMP", ABSOLUTE, 3, 3⟩
  | 0x6C => some ⟨JMP, "JMP", INDIRECT, 3, 5⟩
  | 0x20 => some ⟨JSR, "JSR", ABSOLUTE, 3, 6⟩
  | 0xA9 => some ⟨LDA, "LDA", IMMEDIATE, 2, 2⟩
  | 0xA5 => some ⟨LDA, "LDA", ZERO_PAGE, 2, 3⟩
  | 0xB5 => some ⟨LDA, "LDA", ZERO_PAGE_X, 2, 4⟩
  | 0xAD => some ⟨LDA, "LDA", ABSOLUTE, 3, 4⟩
  | 0xBD => some ⟨LDA, "LDA", ABSOLUTE_X, 3, 4⟩
  | 0xB9 => some ⟨LDA, "LDA", ABSOLUTE_Y, 3, 4⟩
  | 0xA1 => some ⟨LDA, "LDA", INDIRECT_X, 2, 6⟩
  | 0xB1 => some ⟨LDA, "LDA", INDIRECT_Y, 2, 5⟩
  | 0xA2 => some ⟨LDX, "LDX", IMMEDIATE, 2, 2⟩
  | 0xA6 => some ⟨LDX, "LDX", ZERO_PAGE, 2, 3⟩
  | 0xB6 => some ⟨LDX, "LDX", ZERO_PAGE_Y, 2, 4⟩
  | 0xAE => some ⟨LDX, "LDX", ABSOLUTE, 3, 4⟩
  | 0xBE => some ⟨LDX, "LDX", ABSOLUTE_Y, 3, 4⟩
  | 0xA0 => some ⟨LDY, "LDY", IMMEDIATE, 2, 2⟩
  | 0xA4 => some ⟨LDY, "LDY", ZERO_PAGE, 2, 3⟩
  | 0xB4 => some ⟨LDY, "LDY", ZERO_PAGE_X, 2, 4⟩
  | 0xAC => some ⟨LDY, "LDY", ABSOLUTE, 3, 4⟩
  | 0xBC => some ⟨LDY, "LDY", ABSOLUTE_X, 3, 4⟩
  | 0x4A => some ⟨LSR, "LSR", ACCUMULATOR, 1, 2⟩
  | 0x46 => some ⟨LSR, "LSR", ZERO_PAGE, 2, 5⟩
  | 0x56 => some ⟨LSR, "LSR", ZERO_PAGE_X, 2, 6⟩
  | 0x4E => some ⟨LSR, "LSR", ABSOLUTE, 3, 6⟩
  | 0x5E => some ⟨LSR, "LSR", ABSOLUTE_X, 3, 7⟩
  | 0x04 => some ⟨NOP, "NOP", ZERO_PAGE, 2, 2⟩
  | 0x44 => some ⟨NOP, "NOP", ZERO_PAGE, 2, 2⟩
  | 0x64 => some ⟨NOP, "NOP", ZERO_PAGE, 2, 2⟩
  | 0x0c => some ⟨NOP, "NOP", ABSOLUTE, 2, 2⟩
  | 0x14 => some ⟨NOP, "NOP", ZERO_PAGE_X, 2, 2⟩
  | 0x34 => some ⟨NOP, "NOP", ZERO_PAGE_X, 2, 2⟩
  | 0x54 => some ⟨NOP, "NOP", ZERO_PAGE_X, 2, 2⟩
  | 0x74 => some ⟨NOP, "NOP", ZERO_PAGE_X, 2, 2⟩
  | 0xD4 => some ⟨NOP, "NOP", ZERO_PAGE_X, 2, 2⟩
  | 0xF4 => some ⟨NOP, "NOP", ZERO_PAGE_X, 2, 2⟩
  | 0xEA => some ⟨NOP, "NOP", IMPLICIT, 1, 2⟩
  | 0x1A => some ⟨NOP, "NOP", IMPLICIT, 2, 2⟩
  | 0x3A => some ⟨NOP, "NOP", IMPLICIT, 2, 2⟩
  | 0x5A => some ⟨NOP, "NOP", IMPLICIT, 2, 2⟩
  | 0xDA => some ⟨NOP, "NOP", IMPLICIT, 2, 2⟩
  | 0x80 => some ⟨NOP, "NOP", IMPLICIT, 2, 2⟩
  | 0x1C => some ⟨NOP, "NOP", ABSOLUTE_X, 2, 2⟩
  | 0x3C => some ⟨NOP, "NOP", ABSOLUTE_X, 2, 2⟩
  | 0x5C => some ⟨NOP, "NOP", ABSOLUTE_X, 2, 2⟩
  | 0x7C => some ⟨NOP, "NOP", ABSOLUTE_X, 2, 2⟩
  | 0xDC => some ⟨NOP, "NOP", ABSOLUTE_X, 2, 2⟩
  | 0xFC => some ⟨NOP, "NOP", ABSOLUTE_X, 2, 2⟩
  | 0x09 => some ⟨ORA, "ORA", IMMEDIATE, 2, 2⟩
  | 0x05 => some ⟨ORA, "ORA", ZERO_PAGE, 2, 3⟩
  | 0x15 => some ⟨ORA, "ORA", ZERO_PAGE_X, 2, 4⟩
  | 0x0D => some ⟨ORA, "ORA", ABSOLUTE, 3, 4⟩
  | 0x1D => some ⟨ORA, "ORA", ABSOLUTE_X, 3, 4⟩
  | 0x19 => some ⟨ORA, "ORA", ABSOLUTE_Y, 3, 4⟩
  | 0x01 => some ⟨ORA, "ORA", INDIRECT_X, 2, 6⟩
  | 0x11 => some ⟨ORA, "ORA", INDIRECT_Y, 2, 5⟩
  | 0x48 => some ⟨PHA, "PHA", IMPLICIT, 1, 3⟩
  | 0x08 => some ⟨PHP, "PHP", IMPLICIT, 1, 3⟩
  | 0x68 => some ⟨PLA, "PLA", IMPLICIT, 1, 4⟩
  | 0x28 => some ⟨PLP, "PLP", IMPLICIT, 1, 4⟩
  | 0x2A => some ⟨ROL, "ROL", ACCUMULATOR, 1, 2⟩
  | 0x26 => some ⟨ROL, "ROL", ZERO_PAGE, 2, 5⟩
  | 0x36 => some ⟨ROL, "ROL", ZERO_PAGE_X, 2, 6⟩
  | 0x2E => some ⟨ROL, "ROL", ABSOLUTE, 3, 6⟩
  | 0x3E => some ⟨ROL, "ROL", ABSOLUTE_X, 3, 7⟩
  | 0x6A => some ⟨ROR, "ROR", ACCUMULATOR, 1, 2⟩
  | 0x66 => some ⟨ROR, "ROR", ZERO_PAGE, 2, 5⟩
  | 0x76 => some ⟨ROR, "ROR", ZERO_PAGE_X, 2, 6⟩
  | 0x6E => some ⟨ROR, "ROR", ABSOLUTE, 3, 6⟩
  | 0x7E => some ⟨ROR, "ROR", ABSOLUTE_X, 3, 7⟩
  | 0x40 => some ⟨RTI, "RTI", IMPLICIT, 1, 6⟩
  | 0x60 => some ⟨RTS, "RTS", IMPLICIT, 1, 6⟩
  | 0xE9 => some ⟨SBC, "SBC", IMMEDIATE, 2, 2⟩
  | 0xEB => some ⟨SBC, "SBC", IMMEDIATE, 2, 2⟩
  | 0xE5 => some ⟨SBC, "SBC", ZERO_PAGE, 2, 3⟩
  | 0xF5 => some ⟨SBC, "SBC", ZERO_PAGE_X, 2, 4⟩
  | 0xED => some ⟨SBC, "SBC", ABSOLUTE, 3, 4⟩
  | 0xFD => some ⟨SBC, "SBC", ABSOLUTE_X, 3, 4⟩
  | 0xF9 => some ⟨SBC, "SBC", ABSOLUTE_Y, 3, 4⟩
  | 0xE1 => some ⟨SBC, "SBC", INDIRECT_X, 2, 6⟩
  | 0xF1 => some ⟨SBC, "SBC", INDIRECT_Y, 2, 5⟩
  | 0x38 => some ⟨SEC, "SEC", IMPLICIT, 1, 2⟩
  | 0xF8 => some ⟨SED, "SED", IMPLICIT, 1, 2⟩
  | 0x78 => some ⟨SEI, "SEI", IMPLICIT, 1, 2⟩
  | 0x85 => some ⟨STA, "STA", ZERO_PAGE, 2, 3⟩
  | 0x95 => some ⟨STA, "STA", ZERO_PAGE_X, 2, 4⟩
  | 0x8D => some ⟨STA, "STA", ABSOLUTE, 3, 4⟩
  | 0x9D => some ⟨STA, "STA", ABSOLUTE_X, 3, 5⟩
  | 0x99 => some ⟨STA, "STA", ABSOLUTE_Y, 3, 5⟩
  | 0x81 => some ⟨STA, "STA", INDIRECT_X, 2, 6⟩
  | 0x91 => some ⟨STA, "STA", INDIRECT_Y, 2, 6⟩
  | 0x86 => some ⟨STX, "STX", ZERO_PAGE, 2, 3⟩
  | 0x96 => some ⟨STX, "STX", ZERO_PAGE_Y, 2, 4⟩
  | 0x8E => some ⟨STX, "STX", ABSOLUTE, 3, 4⟩
  | 0x84 => some ⟨STY, "STY", ZERO_PAGE, 2, 3⟩
  | 0x94 => some ⟨STY, "STY", ZERO_PAGE_X, 2, 4⟩
  | 0x8C => some ⟨STY, "STY", ABSOLUTE, 3, 4⟩
  | 0xAA => some ⟨TAX, "TAX", IMPLICIT, 1, 2⟩
  | 0xA8 => some ⟨TAY, "TAY", IMPLICIT, 1, 2⟩
  | 0xBA => some ⟨TSX, "TSX", IMPLICIT, 1, 2⟩
  | 0x8A => some ⟨TXA, "TXA", IMPLICIT, 1, 2⟩
  | 0x9A => some ⟨TXS, "TXS", IMPLICIT, 1, 2⟩
  | 0x98 => some ⟨TYA, "TYA", IMPLICIT, 1, 2⟩
  | 0xA3 => some ⟨LAX, "LAX", INDIRECT_X, 2, 6⟩
  | 0xB3 => some ⟨LAX, "LAX", INDIRECT_Y, 2, 5⟩
  | 0xBF => some ⟨LAX, "LAX", ABSOLUTE_Y, 3, 4⟩
  | 0xAF => some ⟨LAX, "LAX", ABSOLUTE, 3, 4⟩
  | 0xB7 => some ⟨LAX, "LAX", ZERO_PAGE_Y, 2, 4⟩
  | 0xA7 => some ⟨LAX, "LAX", ZERO_PAGE_Y, 2, 3⟩
  | 0x83 => some ⟨SAX, "SAX", IMMEDIATE, 2, 2⟩
  | 0x87 => some ⟨SAX, "SAX", ZERO_PAGE, 2, 3⟩
  | 0x8f => some ⟨SAX, "SAX", ABSOLUTE, 2, 4⟩
  | 0x97 => some ⟨SAX, "SAX", ZERO_PAGE_X_BUT_Y, 2, 4⟩
  | 0xCF => some ⟨DCM, "DCM", ABSOLUTE, 3, 6⟩
  | 0xDF => some ⟨DCM, "DCM", ABSOLUTE_X, 3, 7⟩
  | 0xDB => some ⟨DCM, "DCM", ABSOLUTE_Y, 3, 7⟩
  | 0xC7 => some ⟨DCM, "DCM", ZERO_PAGE, 2, 5⟩
  | 0xD7 => some ⟨DCM, "DCM", ZERO_PAGE_X, 2, 6⟩
  | 0xC3 => some ⟨DCM, "DCM", INDIRECT_X, 2, 8⟩
  | 0xD3 => some ⟨DCM, "DCM", INDIRECT_Y, 2, 8⟩
  | 0xEF => some ⟨ISB, "ISB", ABSOLUTE, 3, 6⟩
  | 0xFF => some ⟨ISB, "ISB", ABSOLUTE_X, 3, 7⟩
  | 0xFB => some ⟨ISB, "ISB", ABSOLUTE_Y, 3, 7⟩
  | 0xE7 => some ⟨ISB, "ISB", ZERO_PAGE, 2, 5⟩
  | 0xF7 => some ⟨ISB, "ISB", ZERO_PAGE_X, 2, 6⟩
  | 0xE3 => some ⟨ISB, "ISB", INDIRECT_X, 2, 8⟩
  | 0xF3 => some ⟨ISB, "ISB", INDIRECT_Y, 2, 8⟩
  | _ => none

/-- `getInst`: decode the byte at PC; an opcode absent from the table yields
the error value wrapping `invalidInstruction` (with PC and the byte, as the
Go error message carries). -/
def CPU.getInst (c : CPU) : Except Panic opcode :=
  let m := c.mem.read c.pc
  match opcodes m with
  | some op => Except.ok op
  | none => Except.error (Panic.invalidInstruction c.pc m)

/-- `Read16`: two bytes at `addr`, low byte first; indirect modes wrap the
high-byte fetch within the zero page. -/
def CPU.Read16 (c : CPU) (addr mode : Nat) : Nat :=
  let lsb := c.mem.read addr
  let a2 := (addr + 1) % 65536
  let a2 := if mode = INDIRECT_X ∨ mode = INDIRECT_Y then a2 &&& 0x00FF else a2
  let msb := c.mem.read a2
  (msb <<< 8) ||| lsb

/-- `extraCycles`: 1 if the two addresses live in different pages. -/
def extraCycles (addr1 addr2 : Nat) : Int :=
  if addr1 &&& 0xFF00 ≠ addr2 &&& 0xFF00 then 1 else 0

/-- `getOperandAddr`: effective address of the operand for `mode`.  The
ABSOLUTE_X/ABSOLUTE_Y/INDIRECT_Y arms add the page-cross cycle to `cycles`
unconditionally.  The ACCUMULATOR/IMPLICIT/default arms panic in Go. -/
def CPU.getOperandAddr (c : CPU) (mode : Nat) : Except Panic (Nat × CPU) :=
  if mode = ACCUMULATOR then
    Except.error (Panic.badAddressingMode "ACCUMULATOR Address mode should never use this method")
  else if mode = IMPLICIT then
    Except.error (Panic.badAddressingMode "IMPLICIT Address mode should never use this method")
  else if mode = IMMEDIATE then Except.ok (c.pc, c)
  else if mode = ZERO_PAGE then Except.ok (c.mem.read c.pc, c)
  else if mode = ZERO_PAGE_X then Except.ok ((c.mem.read c.pc + c.x) % 256, c)
  else if mode = ZERO_PAGE_Y ∨ mode = ZERO_PAGE_X_BUT_Y then
    Except.ok ((c.mem.read c.pc + c.y) % 256, c)
  else if mode = ABSOLUTE then Except.ok (c.Read16 c.pc mode, c)
  else if mode = ABSOLUTE_X then
    let a := c.Read16 c.pc mode
    let addr := (a + c.x) % 65536
    Except.ok (addr, { c with cycles := c.cycles + extraCycles a addr })
  else if mode = ABSOLUTE_Y then
    let a := c.Read16 c.pc mode
    let addr := (a + c.y) % 65536
    Except.ok (addr, { c with cycles := c.cycles + extraCycles a addr })
  else if mode = INDIRECT then Except.ok (c.Read16 (c.Read16 c.pc mode) mode, c)
  else if mode = INDIRECT_X then
    Except.ok (c.Read16 ((c.mem.read c.pc + c.x) % 256) mode, c)
  else if mode = INDIRECT_Y then
    let a := c.Read16 (c.mem.read c.pc) mode
    let addr := (a + c.y) % 65536
    Except.ok (addr, { c with cycles := c.cycles + extraCycles a addr })
  else if mode = RELATIVE then
    let m := c.mem.read c.pc
    let sext := if m < 128 then m else 0xFF00 + m
    Except.ok ((c.pc + 1 + sext) % 65536, c)
  else Except.error (Panic.badAddressingMode "Invalid addressing mode")

/-- `flagsOn`. -/
def CPU.flagsOn (c : CPU) (mask : Nat) : CPU := { c with status := c.status ||| mask }

/-- `flagsOff` (`status &^ mask` on uint8). -/
def CPU.flagsOff (c : CPU) (mask : Nat) : CPU :=
  { c with status := c.status &&& (255 ^^^ mask) }

/-- `setNegativeAndZeroFlags`. -/
def CPU.setNegativeAndZeroFlags (c : CPU) (n : Nat) : CPU :=
  let c := c.flagsOff (STATUS_FLAG_NEGATIVE ||| STATUS_FLAG_ZERO)
  let c := if n = 0 then c.flagsOn STATUS_FLAG_ZERO else c
  if n &&& STATUS_FLAG_NEGATIVE ≠ 0 then c.flagsOn STATUS_FLAG_NEGATIVE else c

/-- `StackAddr`: `STACK_PAGE + uint16(c.sp)`. -/
def CPU.StackAddr (c : CPU) : Nat := STACK_PAGE + c.sp

/-- `pushStack`: store at `0x0100+S`, then decrement S (uint8 wrap). -/
def CPU.pushStack (c : CPU) (val : Nat) : CPU :=
  let c := { c with mem := c.mem.write c.StackAddr val }
  { c with sp := (c.sp + 255) % 256 }

/-- `popStack`: increment S (uint8 wrap), then load from `0x0100+S`. -/
def CPU.popStack (c : CPU) : Nat × CPU :=
  let c := { c with sp := (c.sp + 1) % 256 }
  (c.mem.read c.StackAddr, c)

/-- `pushAddress`: high byte then low byte. -/
def CPU.pushAddress (c : CPU) (addr : Nat) : CPU :=
  let c := c.pushStack ((addr >>> 8) % 256)
  c.pushStack (addr &&& 0x00FF)

/-- `popAddress`: low byte then high byte. -/
def CPU.popAddress (c : CPU) : Nat × CPU :=
  let (lo, c) := c.popStack
  let (hi, c) := c.popStack
  ((hi <<< 8) ||| lo, c)

/-- `AddDMACycles`: the fixed 513-cycle OAM-DMA stall. -/
def CPU.AddDMACycles (c : CPU) : CPU := { c with cycles := c.cycles + 513 }

/-- `useDecimalMode`. -/
def CPU.useDecimalMode (c : CPU) : Bool := c.status &&& STATUS_FLAG_DECIMAL ≠ 0

/-- `encodeBCD` (uint8 arithmetic). -/
def encodeBCD (val : Nat) : Nat := ((val / 10) % 256 * 16 % 256 + val % 10) % 256

/-- `decodeBCD` (uint8 arithmetic). -/
def decodeBCD (val : Nat) : Nat := ((val / 16) * 10 % 256 + (val &&& 0x0F)) % 256

/-- `addWithOverflow`: binary-mode add with carry, setting C, V, N, Z. -/
def CPU.addWithOverflow (c : CPU) (b : Nat) : CPU :=
  let res16 := (c.acc + b + (c.status &&& STATUS_FLAG_CARRY)) % 65536
  let res := res16 % 256
  let mask :=
    (if res16 &&& 0x100 ≠ 0 then STATUS_FLAG_CARRY else 0) |||
    (if (c.acc ^^^ res) &&& (b ^^^ res) &&& 0x80 ≠ 0 then STATUS_FLAG_OVERFLOW else 0)
  let c := c.flagsOff (STATUS_FLAG_CARRY ||| STATUS_FLAG_OVERFLOW ||| STATUS_FLAG_NEGATIVE ||| STATUS_FLAG_ZERO)
  let c := c.flagsOn mask
  let c := { c with acc := res }
  c.setNegativeAndZeroFlags c.acc

/-- `addBCD`: decimal-mode add. -/
def CPU.addBCD (c : CPU) (val : Nat) : CPU :=
  let res : Int := (decodeBCD c.acc : Int) + (decodeBCD val : Int) + ((c.status &&& STATUS_FLAG_CARRY : Nat) : Int)
  let c := c.flagsOff STATUS_FLAG_CARRY
  let rc : Int × CPU := if res > 99 then (res - 100, c.flagsOn STATUS_FLAG_CARRY) else (res, c)
  let c := rc.2
  let c := { c with acc := encodeBCD (rc.1 % 256).toNat }
  c.setNegativeAndZeroFlags c.acc

/-- `subBCD`: decimal-mode subtract with the 6502's inverted-carry rule. -/
def CPU.subBCD (c : CPU) (val : Nat) : CPU :=
  let res : Int := (decodeBCD c.acc : Int) - (decodeBCD val : Int)
  let res := if c.status &&& STATUS_FLAG_CARRY = 0 then res - 1 else res
  let c := c.flagsOn STATUS_FLAG_CARRY
  let rc : Int × CPU := if res < 0 then (100 - (-1 * res), c.flagsOff STATUS_FLAG_CARRY) else (res, c)
  let c := rc.2
  let c := { c with acc := encodeBCD (rc.1 % 256).toNat }
  c.setNegativeAndZeroFlags c.acc

/-- `baseCMP`: compare `a` with `b` (uint8 subtraction for N/Z, C when a ≥ b). -/
def CPU.baseCMP (c : CPU) (a b : Nat) : CPU :=
  let c := c.flagsOff (STATUS_FLAG_ZERO ||| STATUS_FLAG_NEGATIVE ||| STATUS_FLAG_CARRY)
  let c := c.setNegativeAndZeroFlags ((a + 256 - b % 256) % 256)
  if a ≥ b then c.flagsOn STATUS_FLAG_CARRY else c

/-- `branch`: conditionally take a relative branch, charging +1 for success
and +1 more when the branch crosses a page relative to `pc-1`. -/
def CPU.branch (c : CPU) (mask : Nat) (predicate : Bool) : Except Panic CPU :=
  if decide (c.status &&& mask > 0) = predicate then do
    let (a, c) ← c.getOperandAddr RELATIVE
    let c := { c with cycles := c.cycles + extraCycles a ((c.pc + 65535) % 65536) }
    let c := { c with cycles := c.cycles + 1 }
    pure { c with pc := a }
  else pure c

/-- `ADC`. -/
def CPU.ADC (c : CPU) (mode : Nat) : Except Panic CPU := do
  let (a, c) ← c.getOperandAddr mode
  let v := c.mem.read a
  if c.useDecimalMode then pure (c.addBCD v) else pure (c.addWithOverflow v)

/-- `AND`. -/
def CPU.AND (c : CPU) (mode : Nat) : Except Panic CPU := do
  let (a, c) ← c.getOperandAddr mode
  let c := { c with acc := c.acc &&& c.mem.read a }
  pure (c.setNegativeAndZeroFlags c.acc)

/-- `ASL`. -/
def CPU.ASL (c : CPU) (mode : Nat) : Except Panic CPU := do
  let (ov, nv, c) ←
    if mode = ACCUMULATOR then
      let ov := c.acc
      let c := { c with acc := c.acc * 2 % 256 }
      pure (ov, c.acc, c)
    else do
      let (addr, c) ← c.getOperandAddr mode
      let ov := c.mem.read addr
      let nv := ov * 2 % 256
      pure (ov, nv, { c with mem := c.mem.write addr nv })
  let c := c.flagsOff (STATUS_FLAG_CARRY ||| STATUS_FLAG_NEGATIVE ||| STATUS_FLAG_ZERO)
  let c := c.setNegativeAndZeroFlags nv
  if ov &&& 0x80 ≠ 0 then pure (c.flagsOn STATUS_FLAG_CARRY) else pure c

/-- `BCC`. -/
def CPU.BCC (c : CPU) (_mode : Nat) : Except Panic CPU :=
  c.branch STATUS_FLAG_CARRY false

/-- `BCS`. -/
def CPU.BCS (c : CPU) (_mode : Nat) : Except Panic CPU :=
  c.branch STATUS_FLAG_CARRY true

/-- `BEQ`. -/
def CPU.BEQ (c : CPU) (_mode : Nat) : Except Panic CPU :=
  c.branch STATUS_FLAG_ZERO true

/-- `BIT`. -/
def CPU.BIT (c : CPU) (mode : Nat) : Except Panic CPU := do
  let (a, c) ← c.getOperandAddr mode
  let o := c.mem.read a
  let c := c.flagsOff (STATUS_FLAG_NEGATIVE ||| STATUS_FLAG_OVERFLOW ||| STATUS_FLAG_ZERO)
  let flags := (if o &&& c.acc = 0 then STATUS_FLAG_ZERO else 0) |||
    (o &&& (STATUS_FLAG_NEGATIVE ||| STATUS_FLAG_OVERFLOW))
  pure (c.flagsOn flags)

/-- `BMI`. -/
def CPU.BMI (c : CPU) (_mode : Nat) : Except Panic CPU :=
  c.branch STATUS_FLAG_NEGATIVE true

/-- `BNE`. -/
def CPU.BNE (c : CPU) (_mode : Nat) : Except Panic CPU :=
  c.branch STATUS_FLAG_ZERO false

/-- `BPL`. -/
def CPU.BPL (c : CPU) (_mode : Nat) : Except Panic CPU :=
  c.branch STATUS_FLAG_NEGATIVE false

/-- `BRK`: push PC+1, push P with B set, vector through 0xFFFE/F, set I. -/
def CPU.BRK (c : CPU) (_mode : Nat) : Except Panic CPU := do
  let c := c.pushAddress ((c.pc + 1) % 65536)
  let c := c.pushStack (c.status ||| STATUS_FLAG_BREAK)
  let c := { c with pc := c.Read16 INT_BRK ABSOLUTE }
  pure (c.flagsOn STATUS_FLAG_INTERRUPT_DISABLE)

/-- `BVC`. -/
def CPU.BVC (c : CPU) (_mode : Nat) : Except Panic CPU :=
  c.branch STATUS_FLAG_OVERFLOW false

/-- `BVS`. -/
def CPU.BVS (c : CPU) (_mode : Nat) : Except Panic CPU :=
  c.branch STATUS_FLAG_OVERFLOW true

/-- `CLC`. -/
def CPU.CLC (c : CPU) (_mode : Nat) : Except Panic CPU :=
  pure (c.flagsOff STATUS_FLAG_CARRY)

/-- `CLD`. -/
def CPU.CLD (c : CPU) (_mode : Nat) : Except Panic CPU :=
  pure (c.flagsOff STATUS_FLAG_DECIMAL)

/-- `CLI`. -/
def CPU.CLI (c : CPU) (_mode : Nat) : Except Panic CPU :=
  pure (c.flagsOff STATUS_FLAG_INTERRUPT_DISABLE)

/-- `CLV`. -/
def CPU.CLV (c : CPU) (_mode : Nat) : Except Panic CPU :=
  pure (c.flagsOff STATUS_FLAG_OVERFLOW)

/-- `CMP`. -/
def CPU.CMP (c : CPU) (mode : Nat) : Except Panic CPU := do
  let (a, c) ← c.getOperandAddr mode
  pure (c.baseCMP c.acc (c.mem.read a))

/-- `CPX`. -/
def CPU.CPX (c : CPU) (mode : Nat) : Except Panic CPU := do
  let (a, c) ← c.getOperandAddr mode
  pure (c.baseCMP c.x (c.mem.read a))

/-- `CPY`. -/
def CPU.CPY (c : CPU) (mode : Nat) : Except Panic CPU := do
  let (a, c) ← c.getOperandAddr mode
  pure (c.baseCMP c.y (c.mem.read a))

/-- `DEC`. -/
def CPU.DEC (c : CPU) (mode : Nat) : Except Panic CPU := do
  let (a, c) ← c.getOperandAddr mode
  let c := { c with mem := c.mem.write a ((c.mem.read a + 255) % 256) }
  pure (c.setNegativeAndZeroFlags (c.mem.read a))

/-- `DEX`. -/
def CPU.DEX (c : CPU) (_mode : Nat) : Except Panic CPU :=
  let c := { c with x := (c.x + 255) % 256 }
  pure (c.setNegativeAndZeroFlags c.x)

/-- `DEY`. -/
def CPU.DEY (c : CPU) (_mode : Nat) : Except Panic CPU :=
  let c := { c with y := (c.y + 255) % 256 }
  pure (c.setNegativeAndZeroFlags c.y)

/-- `EOR`. -/
def CPU.EOR (c : CPU) (mode : Nat) : Except Panic CPU := do
  let (a, c) ← c.getOperandAddr mode
  let c := { c with acc := c.acc ^^^ c.mem.read a }
  pure (c.setNegativeAndZeroFlags c.acc)

/-- `INC`. -/
def CPU.INC (c : CPU) (mode : Nat) : Except Panic CPU := do
  let (a, c) ← c.getOperandAddr mode
  let c := { c with mem := c.mem.write a ((c.mem.read a + 1) % 256) }
  pure (c.setNegativeAndZeroFlags (c.mem.read a))

/-- `INX`. -/
def CPU.INX (c : CPU) (_mode : Nat) : Except Panic CPU :=
  let c := { c with x := (c.x + 1) % 256 }
  pure (c.setNegativeAndZeroFlags c.x)

/-- `INY`. -/
def CPU.INY (c : CPU) (_mode : Nat) : Except Panic CPU :=
  let c := { c with y := (c.y + 1) % 256 }
  pure (c.setNegativeAndZeroFlags c.y)

/-- `JMP`. -/
def CPU.JMP (c : CPU) (mode : Nat) : Except Panic CPU := do
  let (a, c) ← c.getOperandAddr mode
  pure { c with pc := a }

/-- `JSR`: push PC+1 (the second byte of the argument), then jump. -/
def CPU.JSR (c : CPU) (mode : Nat) : Except Panic CPU := do
  let c := c.pushAddress ((c.pc + 1) % 65536)
  let (a, c) ← c.getOperandAddr mode
  pure { c with pc := a }

/-- `LDA`. -/
def CPU.LDA (c : CPU) (mode : Nat) : Except Panic CPU := do
  let (a, c) ← c.getOperandAddr mode
  let c := { c with acc := c.mem.read a }
  pure (c.setNegativeAndZeroFlags c.acc)

/-- `LDX`. -/
def CPU.LDX (c : CPU) (mode : Nat) : Except Panic CPU := do
  let (a, c) ← c.getOperandAddr mode
  let c := { c with x := c.mem.read a }
  pure (c.setNegativeAndZeroFlags c.x)

/-- `LDY`. -/
def CPU.LDY (c : CPU) (mode : Nat) : Except Panic CPU := do
  let (a, c) ← c.getOperandAddr mode
  let c := { c with y := c.mem.read a }
  pure (c.setNegativeAndZeroFlags c.y)

/-- `LSR`. -/
def CPU.LSR (c : CPU) (mode : Nat) : Except Panic CPU := do
  let (ov, nv, c) ←
    if mode = ACCUMULATOR then
      let ov := c.acc
      let c := { c with acc := c.acc / 2 }
      pure (ov, c.acc, c)
    else do
      let (addr, c) ← c.getOperandAddr mode
      let ov := c.mem.read addr
      let nv := ov / 2
      pure (ov, nv, { c with mem := c.mem.write addr nv })
  let c := c.flagsOff (STATUS_FLAG_CARRY ||| STATUS_FLAG_NEGATIVE ||| STATUS_FLAG_ZERO)
  let c := c.setNegativeAndZeroFlags nv
  if ov &&& STATUS_FLAG_CARRY ≠ 0 then pure (c.flagsOn STATUS_FLAG_CARRY) else pure c

/-- `NOP`. -/
def CPU.NOP (c : CPU) (_mode : Nat) : Except Panic CPU := pure c

/-- `ORA`. -/
def CPU.ORA (c : CPU) (mode : Nat) : Except Panic CPU := do
  let (a, c) ← c.getOperandAddr mode
  let c := { c with acc := c.acc ||| c.mem.read a }
  pure (c.setNegativeAndZeroFlags c.acc)

/-- `PHA`. -/
def CPU.PHA (c : CPU) (_mode : Nat) : Except Panic CPU := pure (c.pushStack c.acc)

/-- `PHP`: the 6502 always sets BREAK in the pushed status image. -/
def CPU.PHP (c : CPU) (_mode : Nat) : Except Panic CPU :=
  pure (c.pushStack (c.status ||| STATUS_FLAG_BREAK))

/-- `PLA`. -/
def CPU.PLA (c : CPU) (_mode : Nat) : Except Panic CPU :=
  let (v, c) := c.popStack
  let c := { c with acc := v }
  pure (c.setNegativeAndZeroFlags c.acc)

/-- `PLP`: pulled status has B forced clear, then U forced set. -/
def CPU.PLP (c : CPU) (_mode : Nat) : Except Panic CPU :=
  let (v, c) := c.popStack
  let c := { c with status := v &&& (255 ^^^ STATUS_FLAG_BREAK) }
  pure (c.flagsOn UNUSED_STATUS_FLAG)

/-- `ROL`. -/
def CPU.ROL (c : CPU) (mode : Nat) : Except Panic CPU := do
  let (ov, nv, c) ←
    if mode = ACCUMULATOR then
      let ov := c.acc
      let c := { c with acc := (c.acc * 2 % 256 ||| (c.status &&& STATUS_FLAG_CARRY)) % 256 }
      pure (ov, c.acc, c)
    else do
      let (addr, c) ← c.getOperandAddr mode
      let ov := c.mem.read addr
      let c := { c with mem := c.mem.write addr ((ov * 2 % 256 ||| (c.status &&& STATUS_FLAG_CARRY)) % 256) }
      pure (ov, c.mem.read addr, c)
  let c := c.flagsOff (STATUS_FLAG_CARRY ||| STATUS_FLAG_NEGATIVE ||| STATUS_FLAG_ZERO)
  let c := if ov &&& STATUS_FLAG_NEGATIVE ≠ 0 then c.flagsOn STATUS_FLAG_CARRY else c
  pure (c.setNegativeAndZeroFlags nv)

/-- `ROR`. -/
def CPU.ROR (c : CPU) (mode : Nat) : Except Panic CPU := do
  let (ov, nv, c) ←
    if mode = ACCUMULATOR then
      let ov := c.acc
      let c := { c with acc := ov / 2 ||| ((c.status &&& STATUS_FLAG_CARRY) * 128 % 256) }
      pure (ov, c.acc, c)
    else do
      let (addr, c) ← c.getOperandAddr mode
      let ov := c.mem.read addr
      let c := { c with mem := c.mem.write addr (ov / 2 ||| ((c.status &&& STATUS_FLAG_CARRY) * 128 % 256)) }
      pure (ov, c.mem.read addr, c)
  let c := c.flagsOff (STATUS_FLAG_CARRY ||| STATUS_FLAG_NEGATIVE ||| STATUS_FLAG_ZERO)
  let c := c.setNegativeAndZeroFlags nv
  if ov &&& STATUS_FLAG_CARRY ≠ 0 then pure (c.flagsOn STATUS_FLAG_CARRY) else pure c

/-- `RTI`. -/
def CPU.RTI (c : CPU) (_mode : Nat) : Except Panic CPU :=
  let (v, c) := c.popStack
  let c := { c with status := v }
  let (a, c) := c.popAddress
  pure { c with pc := a }

/-- `RTS`. -/
def CPU.RTS (c : CPU) (_mode : Nat) : Except Panic CPU :=
  let (a, c) := c.popAddress
  pure { c with pc := (a + 1) % 65536 }

/-- `SBC`: binary mode is ADC of the complemented operand. -/
def CPU.SBC (c : CPU) (mode : Nat) : Except Panic CPU := do
  let (a, c) ← c.getOperandAddr mode
  let v := c.mem.read a
  if c.useDecimalMode then pure (c.subBCD v)
  else pure (c.addWithOverflow (v ^^^ 255))

/-- `SEC`. -/
def CPU.SEC (c : CPU) (_mode : Nat) : Except Panic CPU :=
  pure (c.flagsOn STATUS_FLAG_CARRY)

/-- `SED`. -/
def CPU.SED (c : CPU) (_mode : Nat) : Except Panic CPU :=
  pure (c.flagsOn STATUS_FLAG_DECIMAL)

/-- `SEI`. -/
def CPU.SEI (c : CPU) (_mode : Nat) : Except Panic CPU :=
  pure (c.flagsOn STATUS_FLAG_INTERRUPT_DISABLE)

/-- `STA`. -/
def CPU.STA (c : CPU) (mode : Nat) : Except Panic CPU := do
  let (a, c) ← c.getOperandAddr mode
  pure { c with mem := c.mem.write a c.acc }

/-- `STX`. -/
def CPU.STX (c : CPU) (mode : Nat) : Except Panic CPU := do
  let (a, c) ← c.getOperandAddr mode
  pure { c with mem := c.mem.write a c.x }

/-- `STY`. -/
def CPU.STY (c : CPU) (mode : Nat) : Except Panic CPU := do
  let (a, c) ← c.getOperandAddr mode
  pure { c with mem := c.mem.write a c.y }

/-- `TAX`. -/
def CPU.TAX (c : CPU) (_mode : Nat) : Except Panic CPU :=
  let c := { c with x := c.acc }
  pure (c.setNegativeAndZeroFlags c.x)

/-- `TAY`. -/
def CPU.TAY (c : CPU) (_mode : Nat) : Except Panic CPU :=
  let c := { c with y := c.acc }
  pure (c.setNegativeAndZeroFlags c.y)

/-- `TSX`. -/
def CPU.TSX (c : CPU) (_mode : Nat) : Except Panic CPU :=
  let c := { c with x := c.sp }
  pure (c.setNegativeAndZeroFlags c.x)

/-- `TXA`. -/
def CPU.TXA (c : CPU) (_mode : Nat) : Except Panic CPU :=
  let c := { c with acc := c.x }
  pure (c.setNegativeAndZeroFlags c.acc)

/-- `TXS`. -/
def CPU.TXS (c : CPU) (_mode : Nat) : Except Panic CPU :=
  pure { c with sp := c.x }

/-- `TYA`. -/
def CPU.TYA (c : CPU) (_mode : Nat) : Except Panic CPU :=
  let c := { c with acc := c.y }
  pure (c.setNegativeAndZeroFlags c.acc)

/-- `LAX` (undocumented): load A and X; the source sets no flags. -/
def CPU.LAX (c : CPU) (mode : Nat) : Except Panic CPU := do
  let (a, c) ← c.getOperandAddr mode
  let m := c.mem.read a
  pure { c with acc := m, x := m }

/-- `SAX` (undocumented): `x = (acc & x) - operand` (uint8 wrap), no flags. -/
def CPU.SAX (c : CPU) (mode : Nat) : Except Panic CPU := do
  let (a, c) ← c.getOperandAddr mode
  pure { c with x := ((c.acc &&& c.x) + 256 - c.mem.read a % 256) % 256 }

/-- `DCM` (undocumented): decrement memory then compare with A. -/
def CPU.DCM (c : CPU) (mode : Nat) : Except Panic CPU := do
  let (addr, c) ← c.getOperandAddr mode
  let v := (c.mem.read addr + 255) % 256
  let c := { c with mem := c.mem.write addr v }
  pure (c.baseCMP c.acc v)

/-- `ISB` (undocumented): increment memory then `SBC` (which re-resolves the
operand address, recharging any page-cross cycle, as the source does). -/
def CPU.ISB (c : CPU) (mode : Nat) : Except Panic CPU := do
  let (addr, c) ← c.getOperandAddr mode
  let c := { c with mem := c.mem.write addr ((c.mem.read addr + 1) % 256) }
  c.SBC mode

/-- Reflection dispatch (`reflect.ValueOf(c).MethodByName(op.name).Call`):
the opcode's `name` selects the method; an unknown name would be a nil
method call, panicking. -/
def CPU.call (c : CPU) (name : String) (mode : Nat) : Except Panic CPU :=
  match name with
  | "ADC" => c.ADC mode
  | "AND" => c.AND mode
  | "ASL" => c.ASL mode
  | "BCC" => c.BCC mode
  | "BCS" => c.BCS mode
  | "BEQ" => c.BEQ mode
  | "BIT" => c.BIT mode
  | "BMI" => c.BMI mode
  | "BNE" => c.BNE mode
  | "BPL" => c.BPL mode
  | "BRK" => c.BRK mode
  | "BVC" => c.BVC mode
  | "BVS" => c.BVS mode
  | "CLC" => c.CLC mode
  | "CLD" => c.CLD mode
  | "CLI" => c.CLI mode
  | "CLV" => c.CLV mode
  | "CMP" => c.CMP mode
  | "CPX" => c.CPX mode
  | "CPY" => c.CPY mode
  | "DEC" => c.DEC mode
  | "DEX" => c.DEX mode
  | "DEY" => c.DEY mode
  | "EOR" => c.EOR mode
  | "INC" => c.INC mode
  | "INX" => c.INX mode
  | "INY" => c.INY mode
  | "JMP" => c.JMP mode
  | "JSR" => c.JSR mode
  | "LDA" => c.LDA mode
  | "LDX" => c.LDX mode
  | "LDY" => c.LDY mode
  | "LSR" => c.LSR mode
  | "NOP" => c.NOP mode
  | "ORA" => c.ORA mode
  | "PHA" => c.PHA mode
  | "PHP" => c.PHP mode
  | "PLA" => c.PLA mode
  | "PLP" => c.PLP mode
  | "ROL" => c.ROL mode
  | "ROR" => c.ROR mode
  | "RTI" => c.RTI mode
  | "RTS" => c.RTS mode
  | "SBC" => c.SBC mode
  | "SEC" => c.SEC mode
  | "SED" => c.SED mode
  | "SEI" => c.SEI mode
  | "STA" => c.STA mode
  | "STX" => c.STX mode
  | "STY" => c.STY mode
  | "TAX" => c.TAX mode
  | "TAY" => c.TAY mode
  | "TSX" => c.TSX mode
  | "TXA" => c.TXA mode
  | "TXS" => c.TXS mode
  | "TYA" => c.TYA mode
  | "LAX" => c.LAX mode
  | "SAX" => c.SAX mode
  | "DCM" => c.DCM mode
  | "ISB" => c.ISB mode
  | n => Except.error (Panic.noSuchMethod n)

/-- `Step`: service a pending interrupt if any (push PC high-then-low, push P,
vector through `pendingInterrupt`, set I, charge 7/8 cycles, clear the
pending interrupt, return), otherwise decode and execute one instruction,
panicking on an unknown opcode. -/
def CPU.Step (c : CPU) : Except Panic (CPU × Int) :=
  if c.pendingInterrupt ≠ INT_NONE then
    let pi := c.pendingInterrupt
    let c := c.pushAddress c.pc
    let c := c.pushStack c.status
    let c := { c with pc := c.Read16 (pi % 65536) ABSOLUTE }
    let c := c.flagsOn STATUS_FLAG_INTERRUPT_DISABLE
    let c :=
      if pi = INT_NMI then { c with cycles := 7 }
      else if pi = INT_IRQ then { c with cycles := 8 }
      else c
    let c := { c with pendingInterrupt := INT_NONE }
    Except.ok (c, c.cycles)
  else do
    let op ← c.getInst
    let c := { c with cycles := c.cycles + (op.cycles : Int) }
    let c := { c with pc := (c.pc + 1) % 65536 }
    let opc := c.pc
    let c ← c.call op.name op.mode
    let c := if c.pc = opc then { c with pc := (c.pc + (op.bytes - 1)) % 65536 } else c
    Except.ok (c, c.cycles)

lemma Mem.read_write_eq (m : Mem) (a v : Nat) (ha : a < 65536) :
    (m.write a v).read a = v % 256 := by
  simp [Mem.read, Mem.write, Nat.mod_eq_of_lt ha]

lemma Mem.read_write_eq' (m : Mem) (a v t : Nat) (h : t % 65536 = a % 65536) :
    (m.write a v).read t = v % 256 := by
  simp [Mem.read, Mem.write, h]

lemma Mem.read_write_ne (m : Mem) (a v t : Nat) (hne : t % 65536 ≠ a % 65536) :
    (m.write a v).read t = m.read t := by
  simp [Mem.read, Mem.write, hne]

/-- Claim C9 (amended): a stack push stores the byte at `0x0100+S` and then
decrements S (wrapping modulo 256, so the address stays within page 0x01); a
stack pop first increments S (mod 256) and then loads from `0x0100+S`.  No
other memory cell is touched by a push. -/
theorem c9_stack_push_pop (c : CPU) (v : Nat) (hsp : c.sp < 256) :
    (c.pushStack v).sp = (c.sp + 255) % 256 ∧
    (c.pushStack v).mem.read (0x0100 + c.sp) = v % 256 ∧
    (∀ a, a < 65536 → a ≠ 0x0100 + c.sp →
      (c.pushStack v).mem.read a = c.mem.read a) ∧
    c.popStack.2.sp = (c.sp + 1) % 256 ∧
    c.popStack.1 = c.mem.read (0x0100 + (c.sp + 1) % 256) := by
  refine ⟨rfl, ?_, ?_, rfl, rfl⟩
  · exact Mem.read_write_eq c.mem _ v (by simp [CPU.StackAddr, STACK_PAGE]; omega)
  · intro a ha hne
    exact Mem.read_write_ne c.mem _ v a (by simp [CPU.StackAddr, STACK_PAGE]; omega)

/-- Concrete CPU used to witness claim C9. -/
def c9cpu : CPU :=
  { acc := 0x55, x := 0, y := 0, status := 0x24, sp := 0, pc := 0,
    mem := fun _ => 0, cycles := 0, pendingInterrupt := INT_NONE,
    nmiTriggered := false }

/-- Witness for claim C9's amended theorem at S = 0: PHA with A = 0x55 leaves
memory[0x0100] = 0x55 and S = 0xFF, matching the spec's stack-wrap scenario. -/
theorem c9_stack_witness :
    c9cpu.sp < 256 ∧
    ((c9cpu.pushStack 0x55).sp = (c9cpu.sp + 255) % 256 ∧
     (c9cpu.pushStack 0x55).mem.read (0x0100 + c9cpu.sp) = 0x55 % 256 ∧
     (∀ a, a < 65536 → a ≠ 0x0100 + c9cpu.sp →
       (c9cpu.pushStack 0x55).mem.read a = c9cpu.mem.read a) ∧
     c9cpu.popStack.2.sp = (c9cpu.sp + 1) % 256 ∧
     c9cpu.popStack.1 = c9cpu.mem.read (0x0100 + (c9cpu.sp + 1) % 256)) :=
  ⟨by decide, c9_stack_push_pop c9cpu 0x55 (by decide)⟩

/-- Claim C9 counterexample: the claim says a push FIRST decrements S and THEN
stores at `0x0100+S`, which with S = 0 would place the byte at 0x01FF.  The
code stores at the pre-decrement address: after pushing 0x55 with S = 0 the
byte sits at 0x0100, memory[0x01FF] is untouched, and S = 0xFF (this is also
exactly the spec's own "stack wrap" scenario 5). -/
theorem c9_push_order_counterexample :
    (c9cpu.pushStack 0x55).mem.read 0x01FF = 0 ∧
    (c9cpu.pushStack 0x55).mem.read 0x0100 = 0x55 ∧
    (c9cpu.pushStack 0x55).sp = 0xFF := by
  refine ⟨?_, ?_, rfl⟩ <;> decide

/-- Reads from the three-byte stack frame written by the interrupt branch of
`Step` (PC-high at `0x0100+S`, PC-low and P below it), and the fact that no
other cell changed. -/
lemma interruptStackReads (mem : Mem) (sp pc st : Nat)
    (hsp : sp < 256) (hpc : pc < 65536) (hst : st < 256) :
    ((((mem.write (0x0100 + sp) ((pc >>> 8) % 256)).write
        (0x0100 + (sp + 255) % 256) (pc &&& 0x00FF)).write
        (0x0100 + (sp + 255 + 255) % 256) st).read (0x0100 + sp) = pc >>> 8) ∧
    ((((mem.write (0x0100 + sp) ((pc >>> 8) % 256)).write
        (0x0100 + (sp + 255) % 256) (pc &&& 0x00FF)).write
        (0x0100 + (sp + 255 + 255) % 256) st).read (0x0100 + (sp + 255) % 256) = pc &&& 0xFF) ∧
    ((((mem.write (0x0100 + sp) ((pc >>> 8) % 256)).write
        (0x0100 + (sp + 255) % 256) (pc &&& 0x00FF)).write
        (0x0100 + (sp + 255 + 255) % 256) st).read (0x0100 + (sp + 254) % 256) = st) ∧
    (∀ a, a < 65536 → a ≠ 0x0100 + sp → a ≠ 0x0100 + (sp + 255) % 256 →
      a ≠ 0x0100 + (sp + 254) % 256 →
      ((((mem.write (0x0100 + sp) ((pc >>> 8) % 256)).write
        (0x0100 + (sp + 255) % 256) (pc &&& 0x00FF)).write
        (0x0100 + (sp + 255 + 255) % 256) st).read a = mem.read a)) := by
  have hhi : pc >>> 8 < 256 := by
    simp only [Nat.shiftRight_eq_div_pow]; omega
  have hlo : pc &&& 0xFF < 256 :=
    Nat.lt_succ_of_le Nat.and_le_right
  refine ⟨?_, ?_, ?_, ?_⟩
  · simp only [Mem.read, Mem.write]
    split_ifs <;> omega
  · simp only [Mem.read, Mem.write]
    split_ifs <;> omega
  · simp only [Mem.read, Mem.write]
    split_ifs <;> omega
  · intro a ha h1 h2 h3
    simp only [Mem.read, Mem.write]
    split_ifs <;> omega

/-- Claim C1: with a pending interrupt, `Step` pushes PC (high byte, then low
byte) and then P onto the stack, sets the I flag, loads PC from the pending
vector (0xFFFA/B for NMI, 0xFFFE/F for IRQ), charges 7 (NMI) or 8 (IRQ)
cycles, clears the pending interrupt and returns without executing a regular
instruction (registers A/X/Y and all other memory are untouched). -/
theorem c1_interrupt_sequencing (c : CPU)
    (hsp : c.sp < 256) (hpc : c.pc < 65536) (hst : c.status < 256)
    (h : c.pendingInterrupt = INT_NMI ∨ c.pendingInterrupt = INT_IRQ) :
    ∃ c2, c.Step = Except.ok (c2, c2.cycles) ∧
      c2.cycles = (if c.pendingInterrupt = INT_NMI then 7 else 8) ∧
      c2.mem.read (0x0100 + c.sp) = c.pc >>> 8 ∧
      c2.mem.read (0x0100 + (c.sp + 255) % 256) = c.pc &&& 0xFF ∧
      c2.mem.read (0x0100 + (c.sp + 254) % 256) = c.status ∧
      c2.sp = (c.sp + 253) % 256 ∧
      c2.status = c.status ||| STATUS_FLAG_INTERRUPT_DISABLE ∧
      c2.pc = (c.mem.read (c.pendingInterrupt + 1)) <<< 8 ||| c.mem.read c.pendingInterrupt ∧
      c2.pendingInterrupt = INT_NONE ∧
      c2.acc = c.acc ∧ c2.x = c.x ∧ c2.y = c.y ∧
      (∀ a, a < 65536 → a ≠ 0x0100 + c.sp → a ≠ 0x0100 + (c.sp + 255) % 256 →
        a ≠ 0x0100 + (c.sp + 254) % 256 → c2.mem.read a = c.mem.read a) := by
  obtain ⟨acc, x, y, st, sp, pc, mem, cyc, pi, nmi⟩ := c
  simp only at hsp hpc hst h ⊢
  have hhi : pc >>> 8 < 256 := by
    simp only [Nat.shiftRight_eq_div_pow]; omega
  have hlo : pc &&& 0xFF < 256 :=
    Nat.lt_succ_of_le Nat.and_le_right
  rcases h with h | h <;> subst h <;>
    simp only [CPU.Step, CPU.pushAddress, CPU.pushStack, CPU.StackAddr,
      CPU.flagsOn, CPU.Read16, INT_NMI, INT_NONE, INT_IRQ, ABSOLUTE,
      INDIRECT_X, INDIRECT_Y, STACK_PAGE, STATUS_FLAG_INTERRUPT_DISABLE] <;>
    norm_num <;>
    refine ⟨_, ⟨rfl, rfl⟩, rfl, ?_, ?_, ?_, by dsimp only; omega, rfl, ?_, rfl, rfl, rfl, rfl, ?_⟩ <;>
    dsimp only
  · exact (interruptStackReads mem sp pc st hsp hpc hst).1
  · exact (interruptStackReads mem sp pc st hsp hpc hst).2.1
  · exact (interruptStackReads mem sp pc st hsp hpc hst).2.2.1
  · rw [(interruptStackReads mem sp pc st hsp hpc hst).2.2.2 65531
        (by omega) (by omega) (by omega) (by omega),
      (interruptStackReads mem sp pc st hsp hpc hst).2.2.2 65530
        (by omega) (by omega) (by omega) (by omega)]
  · intro a ha h1 h2 h3
    exact (interruptStackReads mem sp pc st hsp hpc hst).2.2.2 a ha h1 h2 h3
  · exact (interruptStackReads mem sp pc st hsp hpc hst).1
  · exact (interruptStackReads mem sp pc st hsp hpc hst).2.1
  · exact (interruptStackReads mem sp pc st hsp hpc hst).2.2.1
  · rw [(interruptStackReads mem sp pc st hsp hpc hst).2.2.2 65535
        (by omega) (by omega) (by omega) (by omega),
      (interruptStackReads mem sp pc st hsp hpc hst).2.2.2 65534
        (by omega) (by omega) (by omega) (by omega)]
  · intro a ha h1 h2 h3
    exact (interruptStackReads mem sp pc st hsp hpc hst).2.2.2 a ha h1 h2 h3

/-- Concrete CPU with a pending NMI, used to witness claim C1. -/
def c1cpu : CPU :=
  { acc := 1, x := 2, y := 3, status := 0x24, sp := 0xFD, pc := 0x1234,
    mem := fun a => if a = 0xFFFA then 0x34 else if a = 0xFFFB then 0x12 else 0,
    cycles := 0, pendingInterrupt := INT_NMI, nmiTriggered := false }

/-- Witness for claim C1 at a concrete pending-NMI state. -/
theorem c1_interrupt_witness :
    (c1cpu.sp < 256 ∧ c1cpu.pc < 65536 ∧ c1cpu.status < 256 ∧
      (c1cpu.pendingInterrupt = INT_NMI ∨ c1cpu.pendingInterrupt = INT_IRQ)) ∧
    (∃ c2, c1cpu.Step = Except.ok (c2, c2.cycles) ∧
      c2.cycles = (if c1cpu.pendingInterrupt = INT_NMI then 7 else 8) ∧
      c2.mem.read (0x0100 + c1cpu.sp) = c1cpu.pc >>> 8 ∧
      c2.mem.read (0x0100 + (c1cpu.sp + 255) % 256) = c1cpu.pc &&& 0xFF ∧
      c2.mem.read (0x0100 + (c1cpu.sp + 254) % 256) = c1cpu.status ∧
      c2.sp = (c1cpu.sp + 253) % 256 ∧
      c2.status = c1cpu.status ||| STATUS_FLAG_INTERRUPT_DISABLE ∧
      c2.pc = (c1cpu.mem.read (c1cpu.pendingInterrupt + 1)) <<< 8 |||
        c1cpu.mem.read c1cpu.pendingInterrupt ∧
      c2.pendingInterrupt = INT_NONE ∧
      c2.acc = c1cpu.acc ∧ c2.x = c1cpu.x ∧ c2.y = c1cpu.y ∧
      (∀ a, a < 65536 → a ≠ 0x0100 + c1cpu.sp → a ≠ 0x0100 + (c1cpu.sp + 255) % 256 →
        a ≠ 0x0100 + (c1cpu.sp + 254) % 256 → c2.mem.read a = c1cpu.mem.read a)) :=
  ⟨⟨by decide, by decide, by decide, Or.inl rfl⟩,
    c1_interrupt_sequencing c1cpu (by decide) (by decide) (by decide) (Or.inl rfl)⟩

/-- Claim C5 (amended): decoding an opcode absent from the table yields a
recoverable error distinguishable as "invalid instruction" (from `getInst`),
but `Step` does not surface it as a return value: it panics with that error,
so execution aborts unless the embedder recovers the panic. -/
theorem c5_invalid_instruction_panics (c : CPU)
    (hpend : c.pendingInterrupt = INT_NONE)
    (hop : opcodes (c.mem.read c.pc) = none) :
    c.getInst = Except.error (Panic.invalidInstruction c.pc (c.mem.read c.pc)) ∧
    c.Step = Except.error (Panic.invalidInstruction c.pc (c.mem.read c.pc)) := by
  constructor
  · simp [CPU.getInst, hop]
  · simp only [CPU.Step, CPU.getInst, hpend, INT_NONE, hop]
    rfl

/-- Concrete CPU facing an unknown opcode (0x02), used for claim C5. -/
def c5cpu : CPU :=
  { acc := 0, x := 0, y := 0, status := 0x24, sp := 0xFD, pc := 0x8000,
    mem := fun _ => 0x02, cycles := 0, pendingInterrupt := INT_NONE,
    nmiTriggered := false }

/-- Witness for claim C5's amended theorem at the concrete state `c5cpu`. -/
theorem c5_invalid_instruction_witness :
    (c5cpu.pendingInterrupt = INT_NONE ∧
      opcodes (c5cpu.mem.read c5cpu.pc) = none) ∧
    (c5cpu.getInst =
      Except.error (Panic.invalidInstruction c5cpu.pc (c5cpu.mem.read c5cpu.pc)) ∧
     c5cpu.Step =
      Except.error (Panic.invalidInstruction c5cpu.pc (c5cpu.mem.read c5cpu.pc))) :=
  ⟨⟨rfl, rfl⟩, c5_invalid_instruction_panics c5cpu rfl rfl⟩

/-- Claim C5 counterexample: on the unknown opcode 0x02 the code does NOT
return normally with a surfaced error — `Step` panics with the
invalid-instruction error, aborting execution (no caller in the repository
recovers it). -/
theorem c5_step_panics_counterexample :
    c5cpu.Step = Except.error (Panic.invalidInstruction 0x8000 0x02) ∧
    (∀ r : CPU × Int, c5cpu.Step ≠ Except.ok r) := by
  refine ⟨rfl, ?_⟩
  intro r h
  rw [show c5cpu.Step = Except.error (Panic.invalidInstruction 0x8000 0x02) from rfl] at h
  exact Except.noConfusion h

/-- Concrete CPU about to run STA Absolute,X (0x9D) with base 0x00FF and
X = 1, so the effective address 0x0100 crosses a page. -/
def c2cpu : CPU :=
  { acc := 0xAB, x := 1, y := 0, status := 0x24, sp := 0xFD, pc := 0x8000,
    mem := fun a => if a = 0x8000 then 0x9D else if a = 0x8001 then 0xFF else 0,
    cycles := 0, pendingInterrupt := INT_NONE, nmiTriggered := false }

/-- Claim C2 (code bug): the opcode table gives STA Absolute,X a fixed 5
cycles, yet executing it across a page boundary charges 6 — `getOperandAddr`
adds the page-cross cycle unconditionally for ABSOLUTE_X/ABSOLUTE_Y/
INDIRECT_Y, write instructions included, instead of only for the entries
whose table documents the +1. -/
theorem c2_sta_absx_pagecross :
    (opcodes 0x9D).map opcode.cycles = some 5 ∧
    (∃ c2, c2cpu.Step = Except.ok (c2, 6) ∧
      c2.mem.read 0x0100 = 0xAB ∧ c2.pc = 0x8003) :=
  ⟨rfl, ⟨_, rfl, rfl, rfl⟩⟩

end mos6502

namespace ppu

-- PPU registers as seen by the CPU (ppu.go)
def PPUCTRL : Nat := 0x2000
def PPUMASK : Nat := 0x2001
def PPUSTATUS : Nat := 0x2002
def OAMADDR : Nat := 0x2003
def OAMDATA : Nat := 0x2004
def PPUSCROLL : Nat := 0x2005
def PPUADDR : Nat := 0x2006
def PPUDATA : Nat := 0x2007

-- PPUCTRL bit flags
def CTRL_VRAM_ADD_INCREMENT : Nat := 4
def CTRL_BACKGROUND_PATTERN_ADDR : Nat := 16
def CTRL_GENERATE_NMI : Nat := 128

-- PPUSTATUS flags
def STATUS_SPRITE_OVERFLOW : Nat := 32
def STATUS_SPRITE_0_HIT : Nat := 64
def STATUS_VERTICAL_BLANK : Nat := 128

-- PPUMASK flags
def MASK_GREYSCALE : Nat := 1
def MASK_RENDER_BG : Nat := 8
def MASK_RENDER_FG : Nat := 16

-- Mirroring mode
def MIRROR_HORIZONTAL : Nat := 0
def MIRROR_VERTICAL : Nat := 1
def MIRROR_FOUR_SCREEN : Nat := 2

def PATTERN_TABLE_0 : Nat := 0x0000
def PATTERN_TABLE_1 : Nat := 0x1000
def BASE_NAMETABLE : Nat := 0x2000
def ATTRIBUTE_OFFSET : Nat := 0x03C0
def NAMETABLE_END : Nat := 0x2FFF
def NAMETABLE_MIRROR_END : Nat := 0x3EFF
def PALETTE_RAM : Nat := 0x3F00
def PALETTE_MIRROR_END : Nat := 0x3FFF

/-- The loopy scroll register: a uint16 of which 15 bits are used, packed as
`yyy NN YYYYY XXXXX` (fine Y, nametable select, coarse Y, coarse X). -/
abbrev loopy : Type := Nat

/-- `set`. -/
def loopy.set (_l : loopy) (n : Nat) : loopy := n % 65536

/-- `resetCoarseX`. -/
def loopy.resetCoarseX (l : loopy) : loopy := l &&& 0xFFE0

/-- `coarseX`. -/
def loopy.coarseX (l : loopy) : Nat := l &&& 0x001F

/-- `setCoarseX`. -/
def loopy.setCoarseX (l : loopy) (n : Nat) : loopy := (l &&& 0xFFE0) ||| (n % 65536)

/-- `incrementCoarseX` (`*l += 1` on uint16). -/
def loopy.incrementCoarseX (l : loopy) : loopy := (l + 1) % 65536

/-- `coarseY`. -/
def loopy.coarseY (l : loopy) : Nat := (l &&& 0x03E0) >>> 5

/-- `incrementCoarseY` (`*l += 32`). -/
def loopy.incrementCoarseY (l : loopy) : loopy := (l + 32) % 65536

/-- `resetCoarseY`. -/
def loopy.resetCoarseY (l : loopy) : loopy := l &&& 0xFC1F

/-- `setCoarseY` (`*l&0xFC1F | loopy(n<<5)`). -/
def loopy.setCoarseY (l : loopy) (n : Nat) : loopy := (l &&& 0xFC1F) ||| ((n <<< 5) % 65536)

/-- `nametableX`. -/
def loopy.nametableX (l : loopy) : Nat := (l &&& 0x0400) >>> 10

/-- `setNametableX` (`val` is a uint8). -/
def loopy.setNametableX (l : loopy) (val : Nat) : loopy :=
  (l &&& 0xFBFF) ||| ((val &&& 0x01) <<< 10)

/-- `toggleNametableX`. -/
def loopy.toggleNametableX (l : loopy) : loopy := l ^^^ 0x0400

/-- `nametableY`. -/
def loopy.nametableY (l : loopy) : Nat := (l &&& 0x0800) >>> 11

/-- `toggleNametableY`. -/
def loopy.toggleNametableY (l : loopy) : loopy := l ^^^ 0x0800

/-- `setNametableY`. -/
def loopy.setNametableY (l : loopy) (val : Nat) : loopy :=
  (l &&& 0xF7FF) ||| ((val &&& 0x01) <<< 11)

/-- `fineY`. -/
def loopy.fineY (l : loopy) : Nat := (l &&& 0x7000) >>> 12

/-- `incrementFineY` (`*l += 0x1000`). -/
def loopy.incrementFineY (l : loopy) : loopy := (l + 0x1000) % 65536

/-- `setFineY`, exactly as the source computes it:
`*l = loopy(uint16(*l) & (0x0FFF | (uint16(n) << 12)))`.  Note the `&`: the
operation can only clear fine-Y bits, never set them. -/
def loopy.setFineY (l : loopy) (n : Nat) : loopy :=
  l &&& (0x0FFF ||| ((n <<< 12) % 65536))

/-- `resetFineY`. -/
def loopy.resetFineY (l : loopy) : loopy := l &&& 0x0FFF

/-- The PPU state (`type PPU struct`).  `chrRead` stands for the Bus handle's
`ChrRead` (pattern-table data from the mapper); the backing stores
(`paletteTable` 32 bytes, `oamData` 256 bytes, `vram` 2 KB) are functions,
indexed in-bounds exactly where the Go arrays are.  The rendering-only
fields (scanline/scandot/frame counters, background shifters, framebuffer),
which no register operation touches, are not modelled. -/
structure PPU where
  chrRead : Nat → Nat
  paletteTable : Nat → Nat
  oamData : Nat → Nat
  vram : Nat → Nat
  mirrorMode : Nat
  v : loopy
  t : loopy
  x : Nat
  wLatch : Nat
  ctrl : Nat
  status : Nat
  mask : Nat
  oamaddr : Nat
  bufferData : Nat

/-- `tileMapAddr`: map a nametable address into the 2 KB VRAM according to
the mirroring mode; four-screen mirroring panics (`none`); an unknown mode
falls through with `a` unchanged, as the Go switch does. -/
def PPU.tileMapAddr (p : PPU) (addr : Nat) : Option Nat :=
  let a := addr &&& 0x0FFF
  if p.mirrorMode = MIRROR_FOUR_SCREEN then none
  else if p.mirrorMode = MIRROR_VERTICAL then
    some (if a ≤ 0x03FF ∨ (0x0800 ≤ a ∧ a ≤ 0x0BFF) then a &&& 0x03FF
      else if (0x0400 ≤ a ∧ a ≤ 0x07FF) ∨ (0x0C00 ≤ a ∧ a ≤ 0x0FFF) then (a &&& 0x03FF) + 0x400
      else a)
  else if p.mirrorMode = MIRROR_HORIZONTAL then
    some (if a ≤ 0x07FF then a &&& 0x03FF
      else if 0x0800 ≤ a ∧ a ≤ 0x0FFF then (a &&& 0x03FF) + 0x400
      else a)
  else some a

/-- `read` (the PPU's internal address-space read): pattern tables through
the bus, nametables through `tileMapAddr`, then palette RAM with the
0x3F10/14/18/1C → 0x3F00/04/08/0C mirror and the greyscale mask. -/
def PPU.read (p : PPU) (addr : Nat) : Option Nat :=
  let a := addr &&& 0x3FFF
  if a < BASE_NAMETABLE then some (p.chrRead a % 256)
  else if a ≤ NAMETABLE_MIRROR_END then
    (p.tileMapAddr ((a &&& 0x0FFF) + BASE_NAMETABLE)).map (fun i => p.vram i % 256)
  else if PALETTE_RAM ≤ a ∧ a ≤ PALETTE_MIRROR_END then
    let a2 := a &&& 0x001F
    let a3 := match a2 with
      | 0x0010 => 0x0000
      | 0x0014 => 0x0004
      | 0x0018 => 0x0008
      | 0x001C => 0x000C
      | _ => a2
    let val := p.paletteTable a3 % 256
    some (match p.mask &&& MASK_GREYSCALE with
      | 0 => val &&& 0x3F
      | 1 => val &&& 0x30
      | _ => val)
  else none

/-- `write` (the PPU's internal address-space write): pattern-table writes
are a no-op (a TODO in the source); nametable writes go through
`tileMapAddr`; palette writes only mask the address to 0x1F — without the
0x3F10-style mirror remap that `read` applies. -/
def PPU.write (p : PPU) (addr val : Nat) : Option PPU :=
  let a := addr &&& 0x3FFF
  let val := val % 256
  if a < BASE_NAMETABLE then some p
  else if a ≤ NAMETABLE_MIRROR_END then
    (p.tileMapAddr ((a &&& 0x0FFF) + BASE_NAMETABLE)).map
      (fun i => { p with vram := fun s => if s = i then val else p.vram s })
  else if PALETTE_RAM ≤ a ∧ a ≤ PALETTE_MIRROR_END then
    some { p with paletteTable := fun s => if s = a &&& 0x001F then val else p.paletteTable s }
  else some p

/-- `clearVBlank`. -/
def PPU.clearVBlank (p : PPU) : PPU :=
  { p with status := p.status &&& (255 ^^^ STATUS_VERTICAL_BLANK) }

/-- `vramIncrement`: advance `v` by 1 or 32 according to ctrl bit 2. -/
def PPU.vramIncrement (p : PPU) : PPU :=
  match (p.ctrl &&& CTRL_VRAM_ADD_INCREMENT) >>> 2 with
  | 0 => { p with v := p.v.incrementCoarseX }
  | 1 => { p with v := p.v.incrementCoarseY }
  | _ => p

/-- `WriteReg`: CPU-visible register writes (`val` is a uint8). -/
def PPU.WriteReg (p : PPU) (r val : Nat) : Option PPU :=
  let val := val % 256
  if r = PPUCTRL then
    some { p with ctrl := val, t := (p.t.setNametableX val).setNametableY (val >>> 1) }
  else if r = PPUMASK then some { p with mask := val }
  else if r = OAMADDR then some { p with oamaddr := val }
  else if r = OAMDATA then
    some { p with oamData := fun s => if s = p.oamaddr then val else p.oamData s,
                  oamaddr := (p.oamaddr + 1) % 256 }
  else if r = PPUSCROLL then
    if p.wLatch = 0 then
      some { p with t := p.t.setCoarseX (val >>> 3), x := val &&& 0x07, wLatch := 1 }
    else
      some { p with t := (p.t.setCoarseY ((val &&& 0x00F8) >>> 3)).setFineY (val &&& 0x0007),
                    wLatch := 0 }
  else if r = PPUADDR then
    if p.wLatch = 0 then
      some { p with t := p.t.set (((val &&& 0x3F) <<< 8) ||| (p.t &&& 0x00FF)), wLatch := 1 }
    else
      some { p with t := p.t.set ((p.t &&& 0xFF00) ||| val),
                    v := (p.v : loopy).set (p.t.set ((p.t &&& 0xFF00) ||| val)), wLatch := 0 }
  else if r = PPUDATA then
    (p.write p.v val).map PPU.vramIncrement
  else some p

/-- `ReadReg`: CPU-visible register reads; non-readable registers return 0. -/
def PPU.ReadReg (p : PPU) (r : Nat) : Option (Nat × PPU) :=
  if r = PPUSTATUS then
    some ((p.status &&& 0xE0) ||| (p.bufferData &&& 0x1F), { p.clearVBlank with wLatch := 0 })
  else if r = OAMDATA then some (p.oamData p.oamaddr % 256, p)
  else if r = PPUDATA then
    (p.read p.v).map (fun bd =>
      let ret := p.bufferData % 256
      let ret := if (p.v : Nat) > 0x3F00 then bd else ret
      (ret, PPU.vramIncrement { p with bufferData := bd }))
  else some (0, p)

/-- Concrete PPU with everything zeroed and horizontal mirroring, ready for
the second PPUSCROLL write (`wLatch = 1`); used for claim C3. -/
def c3ppu : PPU :=
  { chrRead := fun _ => 0, paletteTable := fun _ => 0, oamData := fun _ => 0,
    vram := fun _ => 0, mirrorMode := MIRROR_HORIZONTAL, v := (0 : Nat),
    t := (0 : Nat), x := 0, wLatch := 1, ctrl := 0, status := 0, mask := 0,
    oamaddr := 0, bufferData := 0 }

/-- Claim C3 (code bug): the second PPUSCROLL write of `val = 0x01` should
set `t.fineY = val & 7 = 1`, but `setFineY` is an AND
(`l & (0x0FFF | n << 12)`) that can only clear fine-Y bits: starting from
`t = 0` the resulting fine Y is 0, not 1 (coarse Y and the `w` toggle do
behave as claimed). -/
theorem c3_scroll_second_write_fineY :
    ∃ p2, c3ppu.WriteReg PPUSCROLL 0x01 = some p2 ∧
      p2.wLatch = 0 ∧ p2.t.coarseY = 0x01 >>> 3 ∧
      p2.t.fineY = 0 ∧ p2.t.fineY ≠ 0x01 &&& 0x07 :=
  ⟨_, rfl, rfl, rfl, rfl, by decide⟩

/-- Concrete PPU with an all-zero palette, used for claim C6. -/
def c6ppu : PPU :=
  { chrRead := fun _ => 0, paletteTable := fun _ => 0, oamData := fun _ => 0,
    vram := fun _ => 0, mirrorMode := MIRROR_HORIZONTAL, v := (0 : Nat),
    t := (0 : Nat), x := 0, wLatch := 0, ctrl := 0, status := 0, mask := 0,
    oamaddr := 0, bufferData := 0 }

/-- Claim C6 (code bug): writing v = 0x01 to palette address 0x3F10 stores it
at palette index 0x10 (`write` only masks with 0x1F, without the mirror
remap), while `read` maps both 0x3F00 and 0x3F10 to palette index 0x00 — so
the subsequent read of 0x3F00 returns the old 0, not the written 1, and the
written byte is unreachable. -/
theorem c6_palette_mirror_asymmetry :
    ∃ p2, c6ppu.write 0x3F10 0x01 = some p2 ∧
      p2.paletteTable 0x10 = 0x01 ∧ p2.paletteTable 0x00 = 0 ∧
      p2.read 0x3F00 = some 0 ∧ p2.read 0x3F10 = some 0 :=
  ⟨_, rfl, rfl, rfl, rfl, rfl⟩

end ppu

namespace console

def NES_BASE_MEMORY : Nat := 0x800
def MAX_ADDRESS : Nat := 0xFFFF
def MAX_NES_BASE_RAM : Nat := 0x1FFF
def MAX_PPU_REG_MIRRORED : Nat := 0x3FFF
def MAX_IO_REG : Nat := 0x4020
def MAX_SRAM : Nat := 0x6000

/-- Triggers DMA from CPU memory to the PPU's OAM. -/
def OAMDMA : Nat := 0x4014

/-- The cartridge mapper as the Bus uses it: the `PrgRead`/`PrgWrite`/
`ChrRead` methods of the `mappers.Mapper` interface, with the backing PRG
and CHR stores made explicit. -/
structure Mapper where
  prg : Nat → Nat
  chr : Nat → Nat

/-- `PrgRead`. -/
def Mapper.PrgRead (m : Mapper) (addr : Nat) : Nat := m.prg (addr % 65536) % 256

/-- `PrgWrite`. -/
def Mapper.PrgWrite (m : Mapper) (addr val : Nat) : Mapper :=
  { m with prg := fun t => if t = addr % 65536 then val % 256 else m.prg t }

/-- `ChrRead`. -/
def Mapper.ChrRead (m : Mapper) (addr : Nat) : Nat := m.chr (addr % 65536) % 256

/-- The system bus (`type Bus struct`): it owns the CPU, the PPU, a mapper
and 2 KB of RAM.  (The CPU's and PPU's back-pointers to the bus are realised
in the embeddings of those components.) -/
structure Bus where
  cpu : mos6502.CPU
  ppu : ppu.PPU
  mapper : Mapper
  ram : Nat → Nat
  ticks : Nat

/-- `Bus.Read`: RAM (mirrored), PPU registers (mirrored), the zeroed IO/SRAM
stubs, or the mapper.  Reading a PPU register mutates the PPU, so the read
returns the value together with the successor bus state; a PPU-internal
panic (four-screen mirroring) propagates as `none`. -/
def Bus.Read (b : Bus) (addr : Nat) : Option (Nat × Bus) :=
  let a := addr % 65536
  if a ≤ MAX_NES_BASE_RAM then some (b.ram (a &&& 0x7FF) % 256, b)
  else if a ≤ MAX_PPU_REG_MIRRORED then
    (b.ppu.ReadReg (a &&& 0x2007)).map (fun vp => (vp.1, { b with ppu := vp.2 }))
  else if a < MAX_IO_REG then some (0, b)
  else if a ≤ MAX_SRAM then some (0, b)
  else some (b.mapper.PrgRead a, b)

/-- The OAM-DMA copy loop of `Bus.Write`
(`for addr := base; addr < base+256; addr++ { ppu.WriteReg(OAMDATA, b.Read(addr)) }`),
with the loop bound `base+256` already reduced as the uint16 it is.  (Within
the guard `addr < stop` the uint16 increment `addr++` can never wrap, so it
is a plain `addr + 1`.) -/
def Bus.dmaLoop (b : Bus) (addr stop : Nat) : Option Bus :=
  if _h : addr < stop then
    match b.Read addr with
    | none => none
    | some (v, b1) =>
      match b1.ppu.WriteReg ppu.OAMDATA v with
      | none => none
      | some p2 => Bus.dmaLoop { b1 with ppu := p2 } (addr + 1) stop
  else some b
termination_by stop - addr
decreasing_by simp_wf; omega

/-- `Bus.Write`: RAM, PPU registers, the OAM-DMA trigger at 0x4014 (copy
loop, then `AddDMACycles`), the SRAM stub, or the mapper. -/
def Bus.Write (b : Bus) (addr val : Nat) : Option Bus :=
  let a := addr % 65536
  if a ≤ MAX_NES_BASE_RAM then
    some { b with ram := fun t => if t = (a &&& 0x07FF) then val % 256 else b.ram t }
  else if a ≤ MAX_PPU_REG_MIRRORED then
    (b.ppu.WriteReg (a &&& 0x2007) val).map (fun p => { b with ppu := p })
  else if a < MAX_IO_REG then
    if a = OAMDMA then
      (Bus.dmaLoop b ((val % 256) <<< 8) (((val % 256) <<< 8 + 256) % 65536)).map
        (fun b2 => { b2 with cpu := b2.cpu.AddDMACycles })
    else some b
  else if a ≤ MAX_SRAM then some b
  else some { b with mapper := b.mapper.PrgWrite a val }

/-- Claim C4 (code bug evaluation at the failing input): a write of 0xFF to
0x4014 copies NOTHING — the uint16 loop bound `base+256` wraps from 0xFF00
to 0x0000 so the copy loop exits immediately — yet the CPU is still charged
the 513 DMA cycles.  The resulting bus is unchanged except for the cycle
counter; in particular OAM receives none of the 256 bytes at 0xFF00-0xFFFF. -/
theorem c4_dma_page_ff (b : Bus) :
    b.Write OAMDMA 0xFF = some { b with cpu := { b.cpu with cycles := b.cpu.cycles + 513 } } := by
  have h0 : ¬ ((0xFF % 256) <<< 8 < ((0xFF % 256) <<< 8 + 256) % 65536) := by decide
  simp only [Bus.Write, OAMDMA]
  norm_num
  rw [Bus.dmaLoop, dif_neg h0]
  simp [MAX_NES_BASE_RAM, MAX_PPU_REG_MIRRORED, MAX_IO_REG, MAX_SRAM,
    mos6502.CPU.AddDMACycles]

/-- `WriteReg` at OAMDATA always succeeds: it stores the byte at the current
`oamaddr` and increments `oamaddr` with uint8 wraparound. -/
lemma WriteReg_OAMDATA (q : ppu.PPU) (v : Nat) :
    q.WriteReg ppu.OAMDATA v =
      some { q with oamData := fun s => if s = q.oamaddr then v % 256 else q.oamData s,
                    oamaddr := (q.oamaddr + 1) % 256 } := rfl

/-- Under horizontal or vertical mirroring, `tileMapAddr` never panics. -/
lemma tileMapAddr_isSome (p : ppu.PPU) (addr : Nat)
    (hm : p.mirrorMode = 0 ∨ p.mirrorMode = 1) :
    ∃ i, p.tileMapAddr addr = some i := by
  rcases hm with h | h <;>
    simp [ppu.PPU.tileMapAddr, h, ppu.MIRROR_FOUR_SCREEN, ppu.MIRROR_VERTICAL,
      ppu.MIRROR_HORIZONTAL]

/-- Under horizontal or vertical mirroring, the PPU's internal `read` is
total. -/
lemma read_isSome (p : ppu.PPU) (addr : Nat)
    (hm : p.mirrorMode = 0 ∨ p.mirrorMode = 1) :
    ∃ w, p.read addr = some w := by
  unfold ppu.PPU.read
  by_cases h1 : addr &&& 0x3FFF < ppu.BASE_NAMETABLE
  · simp [h1]
  · by_cases h2 : addr &&& 0x3FFF ≤ ppu.NAMETABLE_MIRROR_END
    · obtain ⟨i, hi⟩ := tileMapAddr_isSome p ((addr &&& 0x3FFF &&& 0x0FFF) + ppu.BASE_NAMETABLE) hm
      simp [h1, h2, hi]
    · have hle : addr &&& 0x3FFF ≤ 0x3FFF := Nat.and_le_right
      have h3 : ppu.PALETTE_RAM ≤ addr &&& 0x3FFF ∧ addr &&& 0x3FFF ≤ ppu.PALETTE_MIRROR_END := by
        simp only [ppu.PALETTE_RAM, ppu.PALETTE_MIRROR_END, ppu.NAMETABLE_MIRROR_END,
          ppu.BASE_NAMETABLE] at *
        omega
      simp [h1, h2, h3]

/-- `vramIncrement` only touches `v`. -/
lemma vramIncrement_fields (p : ppu.PPU) :
    p.vramIncrement.oamaddr = p.oamaddr ∧ p.vramIncrement.oamData = p.oamData ∧
    p.vramIncrement.mirrorMode = p.mirrorMode := by
  unfold ppu.PPU.vramIncrement
  rcases hx : (p.ctrl &&& ppu.CTRL_VRAM_ADD_INCREMENT) >>> 2 with _ | _ | n <;>
    simp [hx]

/-- Under horizontal or vertical mirroring, `ReadReg` is total and never
changes `oamaddr`, the OAM contents, or the mirroring mode. -/
lemma ReadReg_spec (p : ppu.PPU) (r : Nat)
    (hm : p.mirrorMode = 0 ∨ p.mirrorMode = 1) :
    ∃ v p2, p.ReadReg r = some (v, p2) ∧
      p2.oamaddr = p.oamaddr ∧ p2.oamData = p.oamData ∧
      p2.mirrorMode = p.mirrorMode := by
  unfold ppu.PPU.ReadReg
  by_cases h1 : r = ppu.PPUSTATUS
  · simp only [h1, if_pos rfl]
    exact ⟨_, _, rfl, rfl, rfl, rfl⟩
  · by_cases h2 : r = ppu.OAMDATA
    · simp only [h1, if_neg h1, h2, if_pos rfl, if_true]
      exact ⟨_, _, rfl, rfl, rfl, rfl⟩
    · by_cases h3 : r = ppu.PPUDATA
      · obtain ⟨w, hw⟩ := read_isSome p p.v hm
        simp only [if_neg h1, if_neg h2, h3, if_pos rfl, hw, Option.map_some]
        obtain ⟨ho, hd, hmir⟩ := vramIncrement_fields { p with bufferData := w }
        exact ⟨_, _, rfl, ho, hd, hmir⟩
      · simp only [if_neg h1, if_neg h2, if_neg h3]
        exact ⟨_, _, rfl, rfl, rfl, rfl⟩

/-- Under horizontal or vertical mirroring, `Bus.Read` is total, and never
changes the PPU's `oamaddr`, OAM contents, or mirroring mode. -/
lemma Read_spec (b : Bus) (a : Nat)
    (hm : b.ppu.mirrorMode = 0 ∨ b.ppu.mirrorMode = 1) :
    ∃ v b1, b.Read a = some (v, b1) ∧
      b1.ppu.oamaddr = b.ppu.oamaddr ∧ b1.ppu.oamData = b.ppu.oamData ∧
      b1.ppu.mirrorMode = b.ppu.mirrorMode := by
  unfold Bus.Read
  by_cases h1 : a % 65536 ≤ MAX_NES_BASE_RAM
  · simp only [h1, if_pos h1]
    exact ⟨_, _, rfl, rfl, rfl, rfl⟩
  · by_cases h2 : a % 65536 ≤ MAX_PPU_REG_MIRRORED
    · obtain ⟨v, p2, hr, ho, hd, hmir⟩ := ReadReg_spec b.ppu ((a % 65536) &&& 0x2007) hm
      simp only [if_neg h1, h2, if_pos h2, hr, Option.map_some]
      exact ⟨_, _, rfl, ho, hd, hmir⟩
    · by_cases h3 : a % 65536 < MAX_IO_REG
      · simp only [if_neg h1, if_neg h2, h3, if_pos h3]
        exact ⟨_, _, rfl, rfl, rfl, rfl⟩
      · by_cases h4 : a % 65536 ≤ MAX_SRAM
        · simp only [if_neg h1, if_neg h2, if_neg h3, h4, if_pos h4]
          exact ⟨_, _, rfl, rfl, rfl, rfl⟩
        · simp only [if_neg h1, if_neg h2, if_neg h3, if_neg h4]
          exact ⟨_, _, rfl, rfl, rfl, rfl⟩

/-- The OAM-DMA copy loop again, fuel-indexed and collecting the trace of
bytes read: `dmaRun b addr n` performs `n` iterations of the loop body of
the OAMDMA case of `Bus.Write`, returning the list of bytes read (in
order) together with the final bus.  `dmaLoop_eq_dmaRun` proves it equal
to the source's loop. -/
def Bus.dmaRun (b : Bus) (addr n : Nat) : Option (List Nat × Bus) :=
  match n with
  | 0 => some ([], b)
  | n + 1 =>
    match b.Read addr with
    | none => none
    | some (v, b1) =>
      match b1.ppu.WriteReg ppu.OAMDATA v with
      | none => none
      | some p2 =>
        (Bus.dmaRun { b1 with ppu := p2 } (addr + 1) n).map (fun r => (v :: r.1, r.2))

/-- The source's DMA loop equals the fuel-indexed `dmaRun`, forgetting the
trace of bytes. -/
lemma dmaLoop_eq_dmaRun : ∀ (n : Nat) (b : Bus) (addr : Nat),
    Bus.dmaLoop b addr (addr + n) = (Bus.dmaRun b addr n).map (fun r => r.2) := by
  intro n
  induction n with
  | zero =>
    intro b addr
    rw [Bus.dmaLoop]
    rw [dif_neg (show ¬ addr < addr + 0 by omega)]
    rfl
  | succ n IH =>
    intro b addr
    have harith : addr + (n + 1) = (addr + 1) + n := by omega
    rw [Bus.dmaLoop]
    rw [dif_pos (show addr < addr + (n + 1) by omega)]
    rcases hr : b.Read addr with _ | ⟨v, b1⟩
    · simp only [Bus.dmaRun, hr]
      rfl
    · simp only [Bus.dmaRun, hr, WriteReg_OAMDATA, harith, IH]
      rw [Option.map_map]
      congr 1

/-- The DMA loop's effect on OAM, by induction on the iteration count: each
iteration reads one byte, stores it at the current `oamaddr` and advances
`oamaddr` with uint8 wraparound.  After `n ≤ 256` iterations the trace has
length `n`, `oamaddr` has advanced by `n` (mod 256), byte `i` of the trace
sits at OAM slot `(oamaddr + i) % 256`, and OAM slots outside that window
are untouched. -/
lemma dmaRun_spec : ∀ (n : Nat) (b : Bus) (addr : Nat),
    n ≤ 256 →
    (b.ppu.mirrorMode = 0 ∨ b.ppu.mirrorMode = 1) →
    b.ppu.oamaddr < 256 →
    ∃ vs b2, Bus.dmaRun b addr n = some (vs, b2) ∧
      vs.length = n ∧
      b2.ppu.oamaddr = (b.ppu.oamaddr + n) % 256 ∧
      b2.ppu.mirrorMode = b.ppu.mirrorMode ∧
      (∀ s, (∀ i, i < n → s ≠ (b.ppu.oamaddr + i) % 256) →
        b2.ppu.oamData s = b.ppu.oamData s) ∧
      (∀ i, i < n → b2.ppu.oamData ((b.ppu.oamaddr + i) % 256) = vs.getD i 0 % 256) := by
  intro n
  induction n with
  | zero =>
    intro b addr _ _ ha
    exact ⟨[], b, rfl, rfl, by omega, rfl, fun s _ => rfl, fun i hi => absurd hi (by omega)⟩
  | succ n IH =>
    intro b addr hn hm ha
    obtain ⟨v, b1, hr, ho1, hd1, hm1⟩ := Read_spec b addr hm
    have hw := WriteReg_OAMDATA b1.ppu v
    obtain ⟨vs, b2, hrun, hlen, haddr, hmir, hframe, hplace⟩ :=
      IH { b1 with ppu :=
             { b1.ppu with
               oamData := fun s => if s = b1.ppu.oamaddr then v % 256 else b1.ppu.oamData s,
               oamaddr := (b1.ppu.oamaddr + 1) % 256 } } (addr + 1)
        (by omega)
        (hm.imp (fun h => hm1.trans h) (fun h => hm1.trans h))
        (show (b1.ppu.oamaddr + 1) % 256 < 256 by omega)
    dsimp only at haddr hmir hframe hplace
    refine ⟨v :: vs, b2, ?_, by simp [hlen], ?_, hmir.trans hm1, ?_, ?_⟩
    · simp only [Bus.dmaRun, hr, hw, hrun]
      rfl
    · rw [haddr, ho1]
      omega
    · intro s hs
      have h00 := hs 0 (by omega)
      have h0 : s ≠ b1.ppu.oamaddr := by
        rw [ho1]
        omega
      have hstep : b2.ppu.oamData s =
          (if s = b1.ppu.oamaddr then v % 256 else b1.ppu.oamData s) := by
        apply hframe
        intro i hi
        have hsi := hs (i + 1) (by omega)
        rw [ho1]
        omega
      rw [hstep, if_neg h0, hd1]
    · intro i hi
      match i with
      | 0 =>
        have hidx : (b.ppu.oamaddr + 0) % 256 = b.ppu.oamaddr := by omega
        rw [hidx]
        have hfr : b2.ppu.oamData b.ppu.oamaddr =
            (if b.ppu.oamaddr = b1.ppu.oamaddr then v % 256 else b1.ppu.oamData b.ppu.oamaddr) := by
          apply hframe
          intro j hj
          rw [ho1]
          omega
        rw [hfr, if_pos ho1.symm]
        rfl
      | k + 1 =>
        have hidx : ((b1.ppu.oamaddr + 1) % 256 + k) % 256 = (b.ppu.oamaddr + (k + 1)) % 256 := by
          rw [ho1]
          omega
        have hp := hplace k (by omega)
        rw [hidx] at hp
        simpa using hp

/-- Claim C10 (corrected: the DMA source page is restricted to val of at
most 0xFE):
writing `val` to 0x4014 performs exactly 256 read/OAMDATA-write iterations —
`dmaRun`'s trace `vs` lists the 256 bytes read, in order — and byte `i`
lands at OAM slot `(oam_addr + i) % 256`: the copy starts at the current
`oam_addr`, not at slot 0, and the 256 single increments wrap the 8-bit
`oam_addr` back to its starting value.  At `val = 0xFF` the claim fails:
the uint16 loop bound `0xFF00 + 256` wraps to 0 and no bytes are copied. -/
theorem c10_dma_oamaddr_roundtrip (b : Bus) (val : Nat)
    (hval : val ≤ 0xFE)
    (hm : b.ppu.mirrorMode = 0 ∨ b.ppu.mirrorMode = 1)
    (ha : b.ppu.oamaddr < 256) :
    ∃ vs b3,
      Bus.dmaRun b (val <<< 8) 256 = some (vs, b3) ∧
      b.Write OAMDMA val = some { b3 with cpu := b3.cpu.AddDMACycles } ∧
      vs.length = 256 ∧
      b3.ppu.oamaddr = b.ppu.oamaddr ∧
      (∀ i, i < 256 → b3.ppu.oamData ((b.ppu.oamaddr + i) % 256) = vs.getD i 0 % 256) := by
  obtain ⟨vs, b3, hrun, hlen, haddr, hmir, hframe, hplace⟩ :=
    dmaRun_spec 256 b (val <<< 8) (by omega) hm ha
  refine ⟨vs, b3, hrun, ?_, hlen, ?_, hplace⟩
  · have hmod : val % 256 = val := by omega
    have hstop : (val <<< 8 + 256) % 65536 = val <<< 8 + 256 := by
      rw [Nat.shiftLeft_eq]
      norm_num
      omega
    simp only [Bus.Write, OAMDMA, MAX_NES_BASE_RAM, MAX_PPU_REG_MIRRORED, MAX_IO_REG]
    norm_num
    rw [hmod, hstop, dmaLoop_eq_dmaRun 256 b (val <<< 8), hrun]
    exact ⟨b3, rfl, rfl, rfl, rfl, rfl, rfl⟩
  · rw [haddr]
    omega

/-- Concrete bus for the claim C10 witness and counterexample: zeroed RAM,
OAM, palette and VRAM, horizontal mirroring, `oam_addr = 0`, and a mapper
whose PRG reads 0xAB everywhere. -/
def c10bus : Bus :=
  { cpu := { acc := 0, x := 0, y := 0, status := 0, sp := 0xFD, pc := 0x8000,
             mem := fun _ => 0, cycles := 0, pendingInterrupt := mos6502.INT_NONE,
             nmiTriggered := false },
    ppu := { chrRead := fun _ => 0, paletteTable := fun _ => 0, oamData := fun _ => 0,
             vram := fun _ => 0, mirrorMode := 0, v := (0 : Nat), t := (0 : Nat), x := 0,
             wLatch := 0, ctrl := 0, status := 0, mask := 0, oamaddr := 0, bufferData := 0 },
    mapper := { prg := fun _ => 0xAB, chr := fun _ => 0 },
    ram := fun _ => 0, ticks := 0 }

/-- Witness for the claim C10 theorem: the concrete bus `c10bus` with source
page `val = 0`. -/
theorem c10_dma_witness :
    (0 : Nat) ≤ 0xFE ∧ (c10bus.ppu.mirrorMode = 0 ∨ c10bus.ppu.mirrorMode = 1) ∧
    c10bus.ppu.oamaddr < 256 ∧
    (∃ vs b3,
      Bus.dmaRun c10bus (0 <<< 8) 256 = some (vs, b3) ∧
      c10bus.Write OAMDMA 0 = some { b3 with cpu := b3.cpu.AddDMACycles } ∧
      vs.length = 256 ∧
      b3.ppu.oamaddr = c10bus.ppu.oamaddr ∧
      (∀ i, i < 256 → b3.ppu.oamData ((c10bus.ppu.oamaddr + i) % 256) = vs.getD i 0 % 256)) :=
  ⟨by decide, Or.inl rfl, by decide,
    c10_dma_oamaddr_roundtrip c10bus 0 (by decide) (Or.inl rfl) (by decide)⟩

/-- Counterexample to claim C10 as frozen ("every 8-bit DMA source page
val"): at `val = 0xFF` the uint16 loop bound `0xFF00 + 256` wraps to 0, so
no OAMDATA write happens at all — the source byte at 0xFF00 reads as 0xAB,
yet after the DMA the OAM slot at the current `oam_addr` still holds 0:
the "256 copied bytes" of the claim do not exist. -/
theorem c10_dma_ff_counterexample :
    ∃ b2, c10bus.Write OAMDMA 0xFF = some b2 ∧
      (c10bus.Read 0xFF00).map Prod.fst = some 0xAB ∧
      b2.ppu.oamData c10bus.ppu.oamaddr = 0 ∧
      b2.ppu.oamaddr = c10bus.ppu.oamaddr := by
  have h0 : ¬ ((0xFF % 256) <<< 8 < ((0xFF % 256) <<< 8 + 256) % 65536) := by decide
  have hw : c10bus.Write OAMDMA 0xFF =
      some { c10bus with cpu := { c10bus.cpu with cycles := c10bus.cpu.cycles + 513 } } := by
    simp only [Bus.Write, OAMDMA]
    norm_num
    rw [Bus.dmaLoop, dif_neg h0]
    simp [MAX_NES_BASE_RAM, MAX_PPU_REG_MIRRORED, MAX_IO_REG, MAX_SRAM,
      mos6502.CPU.AddDMACycles]
  exact ⟨_, hw, rfl, rfl, rfl⟩

end console

namespace nesrom

/-- The 16-byte iNES header (`type Header struct` of nesrom/header.go):
bytes 0-3 as a string, bytes 4-10 as uint8 fields, and `unused` the padding
bytes 11-15. -/
structure Header where
  constant : String
  prgSize : Nat
  chrSize : Nat
  flags6 : Nat
  flags7 : Nat
  flags8 : Nat
  flags9 : Nat
  flags10 : Nat
  unused : List Nat

/-- `isINesFormat`: bytes 0-3 spell "NES\x1A". -/
def Header.isINesFormat (h : Header) : Bool :=
  h.constant == "NES\x1A"

/-- `isNES2Format`: iNES magic plus bits 2-3 of byte 7 reading binary 10. -/
def Header.isNES2Format (h : Header) : Bool :=
  h.isINesFormat && ((h.flags7 &&& 0x0C) == 0x08)

/-- `ignoreHighNibble`: true when bytes 12-15 (`unused[1:]`) are not all
zero and the header is not NES 2.0. -/
def Header.ignoreHighNibble (h : Header) : Bool :=
  let lfbz := (h.unused.drop 1).all (fun x => x == 0)
  !lfbz && !h.isNES2Format

/-- `mapperNum`: the upper nibble of byte 6 as the low nibble, and — unless
`ignoreHighNibble` — the upper nibble of byte 7, kept in place, as the high
nibble.  The function returns a uint8 and reads neither byte 8 nor any
NES 2.0 extension. -/
def Header.mapperNum (h : Header) : Nat :=
  if h.ignoreHighNibble then (h.flags6 &&& 0xF0) >>> 4
  else (h.flags7 &&& 0xF0) ||| ((h.flags6 &&& 0xF0) >>> 4)

/-- The mapper number as claim C7 reads it (this definition follows the
claim's words, for comparison with the source's `Header.mapperNum`): the
same two nibbles from bytes 6 and 7, but extended by 4 more bits from the
low nibble of byte 8 when the header is NES 2.0. -/
def Header.mapperNumClaimed (h : Header) : Nat :=
  let base := (if h.ignoreHighNibble then 0 else h.flags7 &&& 0xF0) |||
    ((h.flags6 &&& 0xF0) >>> 4)
  if h.isNES2Format then ((h.flags8 &&& 0x0F) <<< 8) ||| base else base

set_option maxRecDepth 8192 in
/-- Masking a byte to its high nibble, arithmetically. -/
lemma and_f0_eq (x : Nat) (hx : x < 256) : x &&& 0xF0 = x / 16 * 16 :=
  (by decide : ∀ y : Fin 256, (y : Nat) &&& 0xF0 = (y : Nat) / 16 * 16) ⟨x, hx⟩

/-- Oring a low nibble into a value with a clear low nibble is addition. -/
lemma or_mul16 (q b : Nat) (hq : q < 16) (hb : b < 16) :
    (q * 16) ||| b = q * 16 + b :=
  (by decide : ∀ u v : Fin 16, ((u : Nat) * 16) ||| (v : Nat) = (u : Nat) * 16 + (v : Nat))
    ⟨q, hq⟩ ⟨b, hb⟩

/-- Claim C7 (corrected: there is no NES 2.0 byte-8 extension): for every
header, `mapperNum` assembles the number from the upper nibble of byte 6
(low nibble) and — unless `ignoreHighNibble` discards it — the upper
nibble of byte 7 (high nibble).  The result always fits a uint8, and the
function never reads byte 8: changing `flags8` never changes the mapper
number, so the claimed 4-bit NES 2.0 extension does not exist. -/
theorem c7_mapper_num (h : Header) (h6 : h.flags6 < 256) (h7 : h.flags7 < 256) :
    h.mapperNum = (if h.ignoreHighNibble then h.flags6 / 16
      else h.flags7 / 16 * 16 + h.flags6 / 16) ∧
    h.mapperNum < 256 ∧
    (∀ f8, Header.mapperNum { h with flags8 := f8 } = h.mapperNum) := by
  have hmn : (h.flags6 &&& 0xF0) >>> 4 = h.flags6 / 16 := by
    rw [and_f0_eq h.flags6 h6, Nat.shiftRight_eq_div_pow]
    omega
  have hor : (h.flags7 &&& 0xF0) ||| ((h.flags6 &&& 0xF0) >>> 4) =
      h.flags7 / 16 * 16 + h.flags6 / 16 := by
    rw [hmn, and_f0_eq h.flags7 h7, or_mul16 _ _ (by omega) (by omega)]
  refine ⟨?_, ?_, fun f8 => rfl⟩
  · simp only [Header.mapperNum]
    split_ifs
    · exact hmn
    · exact hor
  · simp only [Header.mapperNum]
    split_ifs
    · rw [hmn]; omega
    · rw [hor]; omega

/-- A concrete NES 2.0 header for claim C7: magic present, byte 7 = 0x08
(NES 2.0 signature, mapper high nibble 0), byte 6 = 0x00, byte 8 = 0x01
(claimed extension nibble 1), clean padding. -/
def c7hdr : Header :=
  { constant := "NES\x1A", prgSize := 1, chrSize := 1, flags6 := 0x00,
    flags7 := 0x08, flags8 := 0x01, flags9 := 0, flags10 := 0,
    unused := [0, 0, 0, 0, 0] }

/-- Witness for the claim C7 theorem at the concrete header `c7hdr`. -/
theorem c7_mapper_num_witness :
    c7hdr.flags6 < 256 ∧ c7hdr.flags7 < 256 ∧
    (c7hdr.mapperNum = (if c7hdr.ignoreHighNibble then c7hdr.flags6 / 16
        else c7hdr.flags7 / 16 * 16 + c7hdr.flags6 / 16) ∧
      c7hdr.mapperNum < 256 ∧
      (∀ f8, Header.mapperNum { c7hdr with flags8 := f8 } = c7hdr.mapperNum)) :=
  ⟨by decide, by decide, c7_mapper_num c7hdr (by decide) (by decide)⟩

/-- Counterexample to claim C7 as frozen: `c7hdr` is an NES 2.0 header
whose byte 8 has low nibble 1, so the claimed mapper number is
1 <<< 8 ||| 0 = 256 — but `mapperNum` returns 0: the code never reads
byte 8 (and its uint8 return type could not hold 256 anyway). -/
theorem c7_mapper_nes2_counterexample :
    c7hdr.isNES2Format = true ∧ c7hdr.mapperNum = 0 ∧
    c7hdr.mapperNumClaimed = 256 ∧ c7hdr.mapperNum ≠ c7hdr.mapperNumClaimed := by
  refine ⟨by decide, by decide, by decide, by decide⟩

end nesrom

namespace mappers

def NES_BASE_MEMORY : Nat := 0x800

/-- The loaded cartridge as mapper 0 uses it (`type ROM struct` of
nesrom/header.go): the PRG and CHR stores as byte lists (their lengths are
`16384 * prgSize` and `8192 * chrSize` when the loader succeeds), with
`prgSize` standing for the header field `NumPrgBlocks` returns. -/
structure ROM where
  prgSize : Nat
  prg : List Nat
  chr : List Nat

/-- `NumPrgBlocks`. -/
def ROM.NumPrgBlocks (r : ROM) : Nat := r.prgSize

/-- `PrgRead` (`return r.prg[addr]`): an index at or past the end of the
slice is a Go runtime panic, `none` here. -/
def ROM.PrgRead (r : ROM) (addr : Nat) : Option Nat :=
  (r.prg.get? (addr % 65536)).map (fun v => v % 256)

/-- Mapper 0 (`type mapper0 struct`): the base mapper's RAM, the PRG RAM
slice (its `make` size is 0x7FFF - 0x6000 = 8191 bytes), and the ROM. -/
structure mapper0 where
  baseRAM : List Nat
  prgRAM : List Nat
  rom : ROM

/-- `mapper0.MemRead`: base RAM and its mirror, PRG RAM, and — for
0x8000-0xFFFF — the PRG ROM, offset by 0x8000 with two banks and by
0xC000 (a uint16 subtraction that underflows below 0xC000) otherwise; any
other address returns 0. -/
def mapper0.MemRead (m : mapper0) (addr : Nat) : Option Nat :=
  let a := addr % 65536
  if a < NES_BASE_MEMORY then (m.baseRAM.get? a).map (fun v => v % 256)
  else if 0x0800 ≤ a ∧ a ≤ 0x1FFF then
    (m.baseRAM.get? ((a - 0x0800) % NES_BASE_MEMORY)).map (fun v => v % 256)
  else if 0x6000 ≤ a ∧ a ≤ 0x7FFF then
    (m.prgRAM.get? (a - 0x6000)).map (fun v => v % 256)
  else if 0x8000 ≤ a ∧ a ≤ 0xFFFF then
    if m.rom.NumPrgBlocks = 2 then m.rom.PrgRead ((a + 65536 - 0x8000) % 65536)
    else m.rom.PrgRead ((a + 65536 - 0xC000) % 65536)
  else some 0

/-- Claim C8 (code bug evaluation): for a mapper-0 cartridge with exactly
one 16 KB PRG bank, reads at 0xC000-0xFFFF do return the PRG byte at
offset addr - 0xC000 = (addr - 0x8000) mod 0x4000 — but every read at
0x8000-0xBFFF computes the uint16 index addr - 0xC000 = addr + 0x4000,
which is at least 0xC000 and so far past the 16 KB PRG slice: the read
faults (Go slice index out of range) instead of returning the mirrored
byte. -/
theorem c8_mapper0_one_bank (m : mapper0) (addr : Nat)
    (h1 : m.rom.NumPrgBlocks = 1) (hlen : m.rom.prg.length = 16384) :
    (0x8000 ≤ addr ∧ addr ≤ 0xBFFF → m.MemRead addr = none) ∧
    (0xC000 ≤ addr ∧ addr ≤ 0xFFFF →
      m.MemRead addr = some (m.rom.prg.getD (addr - 0xC000) 0 % 256)) := by
  have h2 : ¬ m.rom.NumPrgBlocks = 2 := by rw [h1]; decide
  constructor
  · rintro ⟨hlo, hhi⟩
    have hc1 : ¬ (addr % 65536 < NES_BASE_MEMORY) := by
      simp only [NES_BASE_MEMORY]; omega
    have hc2 : ¬ (0x0800 ≤ addr % 65536 ∧ addr % 65536 ≤ 0x1FFF) := by omega
    have hc3 : ¬ (0x6000 ≤ addr % 65536 ∧ addr % 65536 ≤ 0x7FFF) := by omega
    have hc4 : 0x8000 ≤ addr % 65536 ∧ addr % 65536 ≤ 0xFFFF := by omega
    have hidx : (addr % 65536 + 65536 - 0xC000) % 65536 % 65536 = addr + 0x4000 := by
      omega
    have hnone : m.rom.prg.get? (addr + 0x4000) = none := by
      rw [List.get?_eq_none]
      omega
    simp only [mapper0.MemRead, ROM.PrgRead]
    rw [if_neg hc1, if_neg hc2, if_neg hc3, if_pos hc4, if_neg h2, hidx, hnone]
    rfl
  · rintro ⟨hlo, hhi⟩
    have hc1 : ¬ (addr % 65536 < NES_BASE_MEMORY) := by
      simp only [NES_BASE_MEMORY]; omega
    have hc2 : ¬ (0x0800 ≤ addr % 65536 ∧ addr % 65536 ≤ 0x1FFF) := by omega
    have hc3 : ¬ (0x6000 ≤ addr % 65536 ∧ addr % 65536 ≤ 0x7FFF) := by omega
    have hc4 : 0x8000 ≤ addr % 65536 ∧ addr % 65536 ≤ 0xFFFF := by omega
    have hidx : (addr % 65536 + 65536 - 0xC000) % 65536 % 65536 = addr - 0xC000 := by
      omega
    have hlt : addr - 0xC000 < m.rom.prg.length := by rw [hlen]; omega
    simp only [mapper0.MemRead, ROM.PrgRead]
    rw [if_neg hc1, if_neg hc2, if_neg hc3, if_pos hc4, if_neg h2, hidx,
      List.get?_eq_get hlt, List.getD_eq_get _ _ hlt]
    rfl

/-- A concrete one-bank mapper-0 cartridge for the claim C8 witness: 16 KB
of PRG filled with 0x77. -/
def c8map : mapper0 :=
  { baseRAM := List.replicate 0x800 0, prgRAM := List.replicate 8191 0,
    rom := { prgSize := 1, prg := List.replicate 16384 0x77, chr := [] } }

/-- Witness for the claim C8 evaluation theorem at the concrete mapper
`c8map` and address 0x8000 (which faults; 0x8000 is outside the working
0xC000-0xFFFF window, so the second conjunct holds vacuously there). -/
theorem c8_mapper0_witness :
    c8map.rom.NumPrgBlocks = 1 ∧ c8map.rom.prg.length = 16384 ∧
    ((0x8000 ≤ 0x8000 ∧ 0x8000 ≤ 0xBFFF → c8map.MemRead 0x8000 = none) ∧
      (0xC000 ≤ 0x8000 ∧ 0x8000 ≤ 0xFFFF →
        c8map.MemRead 0x8000 = some (c8map.rom.prg.getD (0x8000 - 0xC000) 0 % 256))) :=
  ⟨rfl, by simp only [c8map, List.length_replicate],
    c8_mapper0_one_bank c8map 0x8000 rfl (by simp only [c8map, List.length_replicate])⟩

end mappers
